import Mathlib

/-!
# Window / taskbar state machine of `script.js`

A shallow embedding of the window management code of `src/script.js`
(`openWindow`, `closeWindow`, `minimizeWindow`, `restoreWindow`,
`setActiveWindow`, the taskbar functions, the document level click and drag
listeners, and the desktop icon wiring), followed by theorems about it.

Modelling conventions:

* The document is the list of its `.window` elements in document order; an
  element reference is the position of the element in that list and the JavaScript
  `null` reference is `Option.none`. An id handed to `getElementById` is the id of a
  `.window` element or of no element.
* CSS classes the code adds and removes are boolean fields, the inline
  `style.display` is a three valued field, pixel positions and `zIndex` are integers.
* Every window element has a `.title-bar span` (markup contract of the page); its text
  is the field `title`.
* `setTimeout` callbacks are kept in the list `timers`; the event `timeout i` runs the
  `i`-th pending callback, so callbacks may run in any order.
* Only taskbar items carry a `data-window-id` attribute; taskbar items lie in no window
  and are no control buttons, so a click on one has no effect beyond its own listener.
* The taskbar functions look an item up with the selector `[data-window-id="id"]`, the id
  spliced in as it is. The model follows the code for plain ids (`plainId`): ids without
  backslash, double quote, line feed, carriage return, form feed and NUL, which a CSS
  parser reads as themselves inside the quotes. For another id the parser reads an
  escape as another character, ends the string early or rejects the selector; the model
  takes the selector to select no item then (what the code does for an id such as `a\b`),
  and the statements about taskbar items are made for plain ids only.
* The clock, the start menu, the selection of desktop icons and `closeAllWindows` are not
  part of the model.
-/

namespace Shell

/-! ## Data model -/

/-- Inline `style.display` of a window element: never written, `"block"` or `"none"`. -/
inductive Display
  | unset
  | block
  | none
  deriving DecidableEq

/-- A `.window` element with the attributes the script reads or writes. -/
structure Window where
  id : String
  title : String
  display : Display
  active : Bool
  inactive : Bool
  opening : Bool
  closing : Bool
  minimizing : Bool
  zIndex : Int
  left : Option Int
  top : Option Int
  offsetWidth : Int
  offsetHeight : Int
  deriving DecidableEq

/-- A `.taskbar-item` element: `dataset.windowId`, `textContent` and the class `active`. -/
structure TaskbarItem where
  windowId : String
  text : String
  active : Bool
  deriving DecidableEq

/-- A `.desktop-icon` element: `dataset.window` and the number of `dblclick` listeners
that `initializeDesktopIcons` has attached to it so far. -/
structure Icon where
  window : String
  dblclick : Nat
  deriving DecidableEq

/-- The global `dragData` object (lines 4-11). -/
structure DragData where
  isDragging : Bool
  startX : Int
  startY : Int
  initialLeft : Int
  initialTop : Int
  element : Option Nat
  deriving DecidableEq

/-- A pending `setTimeout` callback, named after the function that registered it. -/
inductive Timer
  | openWindow (window : Nat)
  | closeWindow (window : Nat)
  | minimizeWindow (window : Nat)
  deriving DecidableEq

/-- The document together with the script's global variables. -/
structure Desktop where
  windows : List Window
  taskbar : List TaskbarItem
  icons : List Icon
  activeWindow : Option Nat
  windowZIndex : Int
  dragData : DragData
  timers : List Timer
  deriving DecidableEq

/-- A handler run: the state it leaves behind and whether a `TypeError` escaped from it. -/
structure Outcome where
  state : Desktop
  threw : Bool
  deriving DecidableEq

/-! ## DOM queries -/

/-- `document.getElementById(windowId)`: the first element with that id. -/
def getElementById (windowId : String) (s : Desktop) : Option Nat :=
  s.windows.findIdx? (fun w => w.id == windowId)

/-- Positions, in document order, of the windows that satisfy `p`
(`document.querySelectorAll`). -/
def querySelectorAll (p : Window → Bool) (s : Desktop) : List Nat :=
  (List.range s.windows.length).filter (fun i => (s.windows[i]?).any p)

/-- The selector `.window[style*="block"]`. -/
def styleBlock (w : Window) : Bool :=
  w.display == Display.block

/-- The selector `.window[style*="block"]:not(.inactive)`. -/
def styleBlockNotInactive (w : Window) : Bool :=
  w.display == Display.block && !w.inactive

/-- Whether a CSS parser reads the character as itself inside a double quoted string:
every character but NUL (0), line feed (10), form feed (12), carriage return (13), the
double quote (34) and the backslash (92). -/
def cssLiteral (c : Char) : Bool :=
  c.toNat != 0 && c.toNat != 10 && c.toNat != 12 && c.toNat != 13 && c.toNat != 34 &&
    c.toNat != 92

/-- An id that a CSS parser reads as itself when it is spliced into
`[data-window-id="..."]`. -/
def plainId (windowId : String) : Bool :=
  windowId.data.all cssLiteral

/-- Whether the selector `[data-window-id="windowId"]`, built by splicing `windowId` in
(lines 240, 265, 272), selects the taskbar item `t`: for a plain id, when the item's
`data-window-id` is that id; for an id that is not plain the model takes the selector to
select nothing (see the conventions above). -/
def selects (windowId : String) (t : TaskbarItem) : Bool :=
  plainId windowId && t.windowId == windowId

/-- The window ids (`dataset.windowId`) of the taskbar items, in taskbar order. -/
def taskbarIds (s : Desktop) : List String :=
  s.taskbar.map (fun t => t.windowId)

/-- Whether `document.querySelector('[data-window-id="windowId"]')` finds an item. -/
def hasTaskbarItem (windowId : String) (s : Desktop) : Bool :=
  s.taskbar.any (selects windowId)

/-- Apply `f` to the first element of the list that satisfies `p`. -/
def modifyFirst {α : Type} (p : α → Bool) (f : α → α) : List α → List α
  | [] => []
  | x :: xs => if p x then f x :: xs else x :: modifyFirst p f xs

/-! ## Taskbar (lines 239-280) -/

/-- `updateTaskbarItem(windowId, isActive)`. -/
def updateTaskbarItem (windowId : String) (isActive : Bool) (s : Desktop) : Desktop :=
  let items := modifyFirst (selects windowId)
    (fun t => { t with active := isActive }) s.taskbar
  { s with taskbar := items }

/-- `removeFromTaskbar(windowId)`. -/
def removeFromTaskbar (windowId : String) (s : Desktop) : Desktop :=
  { s with taskbar := s.taskbar.eraseP (selects windowId) }

/-- `addToTaskbar(windowId, title)`; the click listener of the new item is
`taskbarItemClick windowId`. -/
def addToTaskbar (windowId : String) (title : String) (s : Desktop) : Desktop :=
  if hasTaskbarItem windowId s then s
  else
    let item : TaskbarItem := { windowId := windowId, text := title, active := true }
    { s with taskbar := s.taskbar ++ [item] }

/-! ## Window management (lines 76-162) -/

/-- Write on the element `window`: `f` sets the classes and inline styles concerned. A
reference to no element of the document leaves the document as it is. -/
def modifyWindow (f : Window → Window) (window : Nat) (s : Desktop) : Desktop :=
  { s with windows := s.windows.modify f window }

/-- The `forEach` of `setActiveWindow` (lines 149-152). -/
def deactivateAll (s : Desktop) : Desktop :=
  { s with windows := s.windows.map (fun w => { w with active := false, inactive := true }) }

/-- `setActiveWindow(window)` for an element `window` (lines 147-162). -/
def setActiveWindow (window : Nat) (s : Desktop) : Desktop :=
  let s1 := deactivateAll s
  let z := s1.windowZIndex + 1
  let s2 := modifyWindow (fun w => { w with active := true, inactive := false, zIndex := z })
    window { s1 with windowZIndex := z, activeWindow := some window }
  match s2.windows[window]? with
  | some w => updateTaskbarItem w.id true s2
  | Option.none => s2

/-- "Set next window as active if any" (lines 105-110 and 123-130): with `visibleWindows`
the result of `querySelectorAll` for the selector `p`, call
`setActiveWindow(visibleWindows[visibleWindows.length - 1])` when the list is not empty,
else assign `activeWindow = null`. -/
def activateLast (p : Window → Bool) (s : Desktop) : Desktop :=
  match (querySelectorAll p s).getLast? with
  | some v => setActiveWindow v s
  | Option.none => { s with activeWindow := Option.none }

/-- `openWindow(windowId)` (lines 76-94). -/
def openWindow (windowId : String) (s : Desktop) : Desktop :=
  match getElementById windowId s with
  | Option.none => s
  | some window =>
    let s1 := modifyWindow (fun w => { w with display := Display.block, opening := true })
      window s
    let s2 := setActiveWindow window s1
    let s3 := match s2.windows[window]? with
      | some w => addToTaskbar windowId w.title s2
      | Option.none => s2
    { s3 with timers := s3.timers ++ [Timer.openWindow window] }

/-- The callback `openWindow` registers (lines 91-93). -/
def openWindowTimeout (window : Nat) (s : Desktop) : Desktop :=
  modifyWindow (fun w => { w with opening := false }) window s

/-- `closeWindow(window)` for an element `window`: the synchronous part (lines 96-99). -/
def closeWindow (window : Nat) (s : Desktop) : Desktop :=
  let s1 := modifyWindow (fun w => { w with closing := true }) window s
  { s1 with timers := s1.timers ++ [Timer.closeWindow window] }

/-- The callback `closeWindow` registers (lines 99-111). -/
def closeWindowTimeout (window : Nat) (s : Desktop) : Desktop :=
  let s1 := modifyWindow
    (fun w => { w with display := Display.none, closing := false, active := false,
                       inactive := false }) window s
  let s2 := match s1.windows[window]? with
    | some w => removeFromTaskbar w.id s1
    | Option.none => s1
  activateLast styleBlock s2

/-- `minimizeWindow(window)` for an element `window`: the synchronous part
(lines 114-117). -/
def minimizeWindow (window : Nat) (s : Desktop) : Desktop :=
  let s1 := modifyWindow (fun w => { w with minimizing := true }) window s
  { s1 with timers := s1.timers ++ [Timer.minimizeWindow window] }

/-- The callback `minimizeWindow` registers (lines 117-134). -/
def minimizeWindowTimeout (window : Nat) (s : Desktop) : Desktop :=
  let s1 := modifyWindow
    (fun w => { w with display := Display.none, minimizing := false, active := false,
                       inactive := true }) window s
  let s2 := activateLast styleBlockNotInactive s1
  match s2.windows[window]? with
  | some w => updateTaskbarItem w.id false s2
  | Option.none => s2

/-- `restoreWindow(windowId)` (lines 137-145). -/
def restoreWindow (windowId : String) (s : Desktop) : Desktop :=
  match getElementById windowId s with
  | Option.none => s
  | some window =>
    let s1 := modifyWindow (fun w => { w with display := Display.block, inactive := false })
      window s
    updateTaskbarItem windowId true (setActiveWindow window s1)

/-! ## Calls that may receive `null` -/

/-- `closeWindow(window)` where `window` may be `null`: reading `window.classList`
(line 97) raises a `TypeError` before anything is written. -/
def closeWindowCall : Option Nat → Desktop → Outcome
  | Option.none, s => { state := s, threw := true }
  | some window, s => { state := closeWindow window s, threw := false }

/-- `minimizeWindow(window)` where `window` may be `null` (line 115). -/
def minimizeWindowCall : Option Nat → Desktop → Outcome
  | Option.none, s => { state := s, threw := true }
  | some window, s => { state := minimizeWindow window s, threw := false }

/-- `setActiveWindow(window)` where `window` may be `null`: the `forEach` of lines 149-152
has run when `window.classList` (line 155) raises the `TypeError`. -/
def setActiveWindowCall : Option Nat → Desktop → Outcome
  | Option.none, s => { state := deactivateAll s, threw := true }
  | some window, s => { state := setActiveWindow window s, threw := false }

/-! ## Event handlers (lines 165-232, 249-259) -/

/-- What the document level listeners read from the target of a pointer event:
its classes `close-btn` and `minimize-btn`, `e.target.closest(".window")`, and
`e.target.closest(".title-bar")` given as the window that title bar belongs to
(`titleBar.closest(".window")`) when there is a title bar. -/
structure Target where
  closeBtn : Bool
  minimizeBtn : Bool
  window : Option Nat
  titleBar : Option (Option Nat)
  deriving DecidableEq

/-- The first `click` listener of `initializeWindowControls` (lines 166-176). -/
def controlClick (t : Target) (s : Desktop) : Outcome :=
  let r1 := if t.closeBtn then closeWindowCall t.window s else { state := s, threw := false }
  if r1.threw then r1
  else if t.minimizeBtn then minimizeWindowCall t.window r1.state
  else r1

/-- The second `click` listener of `initializeWindowControls` (lines 179-184). -/
def windowClick (t : Target) (s : Desktop) : Desktop :=
  match t.window with
  | Option.none => s
  | some window =>
    match s.windows[window]? with
    | some w => if w.display == Display.block then setActiveWindow window s else s
    | Option.none => s

/-- A `click` reaching `document`: both listeners run, the second one also when the first
one raised. -/
def documentClick (t : Target) (s : Desktop) : Outcome :=
  let r1 := controlClick t s
  { state := windowClick t r1.state, threw := r1.threw }

/-- The `click` listener of the taskbar item created for `windowId` (lines 249-259). -/
def taskbarItemClick (windowId : String) (s : Desktop) : Outcome :=
  match getElementById windowId s with
  | Option.none => { state := s, threw := true }
  | some window =>
    match s.windows[window]? with
    | Option.none => { state := s, threw := true }
    | some w =>
      if w.display == Display.none || w.inactive then
        { state := restoreWindow windowId s, threw := false }
      else
        { state := minimizeWindow window s, threw := false }

/-- The `mousedown` listener (lines 192-208). -/
def mousedown (t : Target) (clientX clientY : Int) (s : Desktop) : Desktop :=
  match t.titleBar with
  | Option.none => s
  | some Option.none => s
  | some (some window) =>
    match s.windows[window]? with
    | Option.none => s
    | some w =>
      let d : DragData := { isDragging := true, element := some window, startX := clientX,
                            startY := clientY, initialLeft := w.left.getD 0,
                            initialTop := w.top.getD 0 }
      setActiveWindow window { s with dragData := d }

/-- The `mousemove` listener (lines 210-226); `innerWidth` and `innerHeight` are the
viewport size read from the global `window` object. -/
def mousemove (clientX clientY innerWidth innerHeight : Int) (s : Desktop) : Desktop :=
  match s.dragData.isDragging, s.dragData.element with
  | true, some element =>
    let deltaX := clientX - s.dragData.startX
    let deltaY := clientY - s.dragData.startY
    let newLeft := s.dragData.initialLeft + deltaX
    let newTop := s.dragData.initialTop + deltaY
    modifyWindow
      (fun w =>
        let maxLeft := innerWidth - w.offsetWidth
        let maxTop := innerHeight - w.offsetHeight - 40
        { w with left := some (max 0 (min newLeft maxLeft)),
                 top := some (max 0 (min newTop maxTop)) }) element s
  | _, _ => s

/-- The `mouseup` listener (lines 228-231). -/
def mouseup (s : Desktop) : Desktop :=
  { s with dragData := { s.dragData with isDragging := false, element := Option.none } }

/-! ## Desktop icons (lines 48-73, 322-337) -/

/-- The argument of `addDesktopIcon`. -/
structure IconData where
  windowId : String
  emoji : String
  label : String
  deriving DecidableEq

/-- `initializeDesktopIcons()`: every `.desktop-icon` of the document gets one more
`dblclick` listener (a fresh function object each time, so none is deduplicated). -/
def initializeDesktopIcons (s : Desktop) : Desktop :=
  { s with icons := s.icons.map (fun i => { i with dblclick := i.dblclick + 1 }) }

/-- `addDesktopIcon(iconData)`. -/
def addDesktopIcon (iconData : IconData) (s : Desktop) : Desktop :=
  initializeDesktopIcons
    { s with icons := s.icons ++ [{ window := iconData.windowId, dblclick := 0 }] }

/-- A `dblclick` on the icon at position `icon`: each attached listener runs
`openWindow(this.dataset.window)`. -/
def iconDblclick (icon : Nat) (s : Desktop) : Desktop :=
  match s.icons[icon]? with
  | Option.none => s
  | some i => Nat.iterate (openWindow i.window) i.dblclick s

/-! ## Runs -/

/-- Run a pending callback. -/
def runTimer : Timer → Desktop → Desktop
  | Timer.openWindow window, s => openWindowTimeout window s
  | Timer.closeWindow window, s => closeWindowTimeout window s
  | Timer.minimizeWindow window, s => minimizeWindowTimeout window s

/-- The `i`-th pending callback fires (and leaves the list of pending callbacks). -/
def timeout (i : Nat) (s : Desktop) : Desktop :=
  match s.timers[i]? with
  | Option.none => s
  | some t => runTimer t { s with timers := s.timers.eraseIdx i }

/-- Whether an optional element reference is `null` or an element of the document. -/
def refOk (r : Option Nat) (s : Desktop) : Bool :=
  match r with
  | Option.none => true
  | some window => decide (window < s.windows.length)

/-- Whether the references of a target are `null` or elements of the document. -/
def targetOk (t : Target) (s : Desktop) : Bool :=
  refOk t.window s && (match t.titleBar with
    | Option.none => true
    | some r => refOk r s)

/-- Things that can happen to the page: direct calls of the global functions, a timer
firing, and user input. -/
inductive Event
  | openWindow (windowId : String)
  | restoreWindow (windowId : String)
  | closeWindow (window : Nat)
  | minimizeWindow (window : Nat)
  | setActiveWindow (window : Nat)
  | timeout (i : Nat)
  | taskbarItemClick (windowId : String)
  | click (t : Target)
  | mousedown (t : Target) (clientX clientY : Int)
  | mousemove (clientX clientY innerWidth innerHeight : Int)
  | mouseup
  | dblclick (icon : Nat)
  | addDesktopIcon (iconData : IconData)
  deriving DecidableEq

/-- The state after one event. An event that names an element that is not in the
document, or the taskbar item of an id of which the taskbar holds no item, cannot happen
and is skipped. -/
def applyEvent (e : Event) (s : Desktop) : Desktop :=
  match e with
  | Event.openWindow windowId => openWindow windowId s
  | Event.restoreWindow windowId => restoreWindow windowId s
  | Event.closeWindow window =>
    if window < s.windows.length then closeWindow window s else s
  | Event.minimizeWindow window =>
    if window < s.windows.length then minimizeWindow window s else s
  | Event.setActiveWindow window =>
    if window < s.windows.length then setActiveWindow window s else s
  | Event.timeout i => timeout i s
  | Event.taskbarItemClick windowId =>
    if windowId ∈ taskbarIds s then (taskbarItemClick windowId s).state else s
  | Event.click t => if targetOk t s then (documentClick t s).state else s
  | Event.mousedown t clientX clientY =>
    if targetOk t s then mousedown t clientX clientY s else s
  | Event.mousemove clientX clientY innerWidth innerHeight =>
    mousemove clientX clientY innerWidth innerHeight s
  | Event.mouseup => mouseup s
  | Event.dblclick icon => iconDblclick icon s
  | Event.addDesktopIcon iconData => addDesktopIcon iconData s

/-- The state after a sequence of events, oldest first. -/
def run (es : List Event) (s : Desktop) : Desktop :=
  es.foldl (fun acc e => applyEvent e acc) s

/-! ## Predicates used in the statements -/

/-- The window a call of `setActiveWindow` leaves at position `i`. -/
def activated (window : Nat) (z : Int) (i : Nat) (w : Window) : Window :=
  if window = i then { w with active := true, inactive := false, zIndex := z }
  else { w with active := false, inactive := true }

/-- At most one window of the list carries the class `active`. -/
def AtMostOneActive (ws : List Window) : Prop :=
  ∀ (i j : Nat) (x y : Window), ws[i]? = some x → ws[j]? = some y →
    x.active = true → y.active = true → i = j

/-- No position of `ws2` carries the class `active` unless it did in `ws1`. -/
def ActiveWithin (ws1 ws2 : List Window) : Prop :=
  ∀ (i : Nat) (y : Window), ws2[i]? = some y → y.active = true →
    ∃ x, ws1[i]? = some x ∧ x.active = true

/-- Every window's `zIndex` is at most the counter `windowZIndex`. -/
def ZBounded (s : Desktop) : Prop :=
  ∀ (i : Nat) (x : Window), s.windows[i]? = some x → x.zIndex ≤ s.windowZIndex

/-- A window that carries the class `active` has a `zIndex` strictly greater than that of
every other displayed window. -/
def ActiveOnTop (s : Desktop) : Prop :=
  ∀ (i j : Nat) (x y : Window), s.windows[i]? = some x → s.windows[j]? = some y →
    x.active = true → j ≠ i → y.display = Display.block → y.zIndex < x.zIndex

/-- The two `zIndex` invariants together. -/
def ZInv (s : Desktop) : Prop :=
  ZBounded s ∧ ActiveOnTop s

/-- From `ws1` to `ws2` no `zIndex` changed, no window gained the class `active` and no
window became displayed. -/
def Quiet (ws1 ws2 : List Window) : Prop :=
  ∀ (i : Nat) (y : Window), ws2[i]? = some y →
    ∃ x, ws1[i]? = some x ∧ y.zIndex = x.zIndex ∧ (y.active = true → x.active = true) ∧
      (y.display = Display.block → x.display = Display.block)

/-- One step of the `zIndex` bookkeeping: the counter does not decrease and the
invariants are kept. -/
def ZStep (s s' : Desktop) : Prop :=
  s.windowZIndex ≤ s'.windowZIndex ∧ (ZInv s → ZInv s')

/-! ## Example pages -/

/-- A window element of 300 by 200 pixels with no transition class and no inline
position. -/
def mkWindow (id title : String) (display : Display) (active inactive : Bool) (zIndex : Int) :
    Window :=
  { id := id, title := title, display := display, active := active, inactive := inactive,
    opening := false, closing := false, minimizing := false, zIndex := zIndex,
    left := Option.none, top := Option.none, offsetWidth := 300, offsetHeight := 200 }

/-- The initial value of `dragData` (lines 4-11). -/
def noDrag : DragData :=
  { isDragging := false, startX := 0, startY := 0, initialLeft := 0, initialTop := 0,
    element := Option.none }

/-- A page with the given windows and taskbar items, the globals at their initial values
(lines 2-11), no timer pending and no icon. -/
def mkDesktop (windows : List Window) (taskbar : List TaskbarItem) : Desktop :=
  { windows := windows, taskbar := taskbar, icons := [], activeWindow := Option.none,
    windowZIndex := 10, dragData := noDrag, timers := [] }

/-- A freshly loaded page with three windows, none of them displayed. -/
def page0 : Desktop :=
  mkDesktop
    [mkWindow "about" "About Me" Display.unset false false 0,
     mkWindow "projects" "Projects" Display.unset false false 0,
     mkWindow "contact" "Contact" Display.unset false false 0] []

/-- A page whose two displayed windows are stacked with the active one below. -/
def staleStack : Desktop :=
  mkDesktop
    [mkWindow "about" "About Me" Display.block true false 1,
     mkWindow "projects" "Projects" Display.block false true 5]
    [{ windowId := "about", text := "About Me", active := true },
     { windowId := "projects", text := "Projects", active := false }]

/-- The events of a session on a freshly loaded page: two windows are opened and their
opening timers fire. -/
def openTwo : List Event :=
  [Event.openWindow "about", Event.openWindow "projects", Event.timeout 0, Event.timeout 0]

/-- The events of a session on a freshly loaded page: the three windows are opened last to
first, and their opening timers fire. -/
def openThree : List Event :=
  [Event.openWindow "contact", Event.openWindow "projects", Event.openWindow "about",
   Event.timeout 0, Event.timeout 0, Event.timeout 0]

/-- A click on the close button of the window at position `window`. -/
def closeButtonOf (window : Nat) : Target :=
  { closeBtn := true, minimizeBtn := false, window := some window, titleBar := Option.none }

/-- A click on the minimize button of the window at position `window`. -/
def minimizeButtonOf (window : Nat) : Target :=
  { closeBtn := false, minimizeBtn := true, window := some window, titleBar := Option.none }

/-- A click on an element of class `close-btn` that lies in no `.window`. -/
def strayCloseButton : Target :=
  { closeBtn := true, minimizeBtn := false, window := Option.none, titleBar := Option.none }

/-- A page on which one 300 by 200 window is being dragged: the pointer went down at
(100, 100) with the window at the origin. -/
def dragging : Desktop :=
  { mkDesktop [mkWindow "about" "About Me" Display.block true false 11]
      [{ windowId := "about", text := "About Me", active := true }] with
    activeWindow := some 0
    windowZIndex := 11
    dragData := { isDragging := true, startX := 100, startY := 100, initialLeft := 0,
                  initialTop := 0, element := some 0 } }

/-- A freshly loaded page with one statically declared icon for the window `about`,
after `initializeDesktopIcons` has run at `DOMContentLoaded`. -/
def pageWithIcon : Desktop :=
  initializeDesktopIcons { page0 with icons := [{ window := "about", dblclick := 0 }] }

/-- A click on an element that is no control button and lies in no `.window`. -/
def desktopBackground : Target :=
  { closeBtn := false, minimizeBtn := false, window := Option.none, titleBar := Option.none }

/-- The descriptor of an icon for the window `about`. -/
def aboutIcon : IconData :=
  { windowId := "about", emoji := "i", label := "About" }

/-- The window id and the label of each taskbar item, in taskbar order. -/
def taskbarLabels (s : Desktop) : List (String × String) :=
  s.taskbar.map (fun t => (t.windowId, t.text))

/-- A page whose window `about` is hidden and has a taskbar item created under an older
title. -/
def staleLabel : Desktop :=
  mkDesktop [mkWindow "about" "About Me" Display.none false true 11]
    [{ windowId := "about", text := "Old title", active := false }]

/-- The events of the window life cycle as the page offers them: `openWindow`,
`closeWindow`, `minimizeWindow`, a timer firing, a click on a taskbar item (the only
caller of `restoreWindow`), a click anywhere in the document, a double click on an icon,
pointer moves and releases, and `addDesktopIcon`. A direct call of `restoreWindow` or
`setActiveWindow` and a `mousedown` are not among them. -/
def Event.lifecycle : Event → Bool
  | Event.restoreWindow _ => false
  | Event.setActiveWindow _ => false
  | Event.mousedown _ _ _ => false
  | _ => true

/-- The taskbar mirrors the window `x`: if `x` is displayed it has a taskbar item, and if
it has a taskbar item it is displayed, or hidden by `display: none` and of class
`inactive` (the state in which the callback of `minimizeWindow` leaves a window). -/
def Mirrored (s : Desktop) (x : Window) : Prop :=
  (x.display = Display.block → x.id ∈ taskbarIds s) ∧
  (x.id ∈ taskbarIds s →
    x.display = Display.block ∨ (x.display = Display.none ∧ x.inactive = true))

/-- No two windows of the list share an id. -/
def IdsUnique (ws : List Window) : Prop :=
  ∀ (i j : Nat) (x y : Window), ws[i]? = some x → ws[j]? = some y → x.id = y.id → i = j

/-- The invariant of the taskbar: window ids are unique, no two taskbar items are for the
same id, the taskbar mirrors every window, and window ids are plain. -/
def TaskbarInv (s : Desktop) : Prop :=
  IdsUnique s.windows ∧ (taskbarIds s).Nodup ∧
    (∀ (i : Nat) (x : Window), s.windows[i]? = some x → Mirrored s x) ∧
    ∀ (i : Nat) (x : Window), s.windows[i]? = some x → plainId x.id = true

/-- From `x` to `y` the id is kept, and either the display is kept and a hidden inactive
window stays inactive, or the window ends hidden and inactive. -/
def Settles (x y : Window) : Prop :=
  y.id = x.id ∧
    ((y.display = x.display ∧
        (x.display = Display.none → x.inactive = true → y.inactive = true)) ∨
      (y.display = Display.none ∧ y.inactive = true))

/-- The id made of `a`, a backslash and `b`: a valid element id that is not plain. -/
def escapedId : String :=
  String.mk [Char.ofNat 97, Char.ofNat 92, Char.ofNat 98]

/-- A freshly loaded page with one window, whose id is `escapedId`. -/
def escapedPage : Desktop :=
  mkDesktop [mkWindow escapedId "Notes" Display.unset false false 0] []

/-- A window whose id is `a` is displayed. -/
def Displayed (a : String) (s : Desktop) : Prop :=
  ∃ (i : Nat) (x : Window), s.windows[i]? = some x ∧ x.id = a ∧ x.display = Display.block

/-- The callback of `closeWindow(window)`, run in state `s` where `w` is the element
`window`, leaves the window hidden and no taskbar item for its id, and neither adds nor
removes an item of another id. -/
def ClosedLosesEntry (s : Desktop) (window : Nat) (w : Window) : Prop :=
  (∃ y, (closeWindowTimeout window s).windows[window]? = some y ∧
    y.display = Display.none) ∧
  w.id ∉ taskbarIds (closeWindowTimeout window s) ∧
  ∀ a, a ≠ w.id → (a ∈ taskbarIds (closeWindowTimeout window s) ↔ a ∈ taskbarIds s)

/-- The callback of `minimizeWindow(window)`, run in state `s` where `w` is the element
`window`, leaves the window hidden and the taskbar items those of `s`; in particular a
window minimized while displayed has a taskbar item afterwards. -/
def MinimizedKeepsEntry (s : Desktop) (window : Nat) (w : Window) : Prop :=
  (∃ y, (minimizeWindowTimeout window s).windows[window]? = some y ∧
    y.display = Display.none) ∧
  taskbarIds (minimizeWindowTimeout window s) = taskbarIds s ∧
  (w.display = Display.block → w.id ∈ taskbarIds (minimizeWindowTimeout window s))

/-- A taskbar item of `s` is still there after the event `e`, unless `e` is the callback
of `closeWindow` for the window of that id. -/
def EntriesPersist (s : Desktop) (e : Event) : Prop :=
  ∀ a, a ∈ taskbarIds s → a ∈ taskbarIds (applyEvent e s) ∨
    ∃ (i window : Nat) (w : Window), e = Event.timeout i ∧
      s.timers[i]? = some (Timer.closeWindow window) ∧ s.windows[window]? = some w ∧
      w.id = a

/-- A taskbar item that the event `e` adds to those of `s` is the item of a window that
is displayed after `e`. -/
def EntriesFromOpen (s : Desktop) (e : Event) : Prop :=
  ∀ a, a ∉ taskbarIds s → a ∈ taskbarIds (applyEvent e s) → Displayed a (applyEvent e s)

/-- A session on a freshly loaded page: two windows are opened, `projects` is minimized
from its taskbar item and `about` closed from its button; the close timer fires before
the minimize timer. -/
def openMinimizeClose : List Event :=
  openTwo ++ [Event.taskbarItemClick "projects", Event.click (closeButtonOf 0),
    Event.timeout 1, Event.timeout 0]

/-! ## Basic facts about the operations -/

@[simp] theorem updateTaskbarItem_windows (a : String) (b : Bool) (s : Desktop) :
    (updateTaskbarItem a b s).windows = s.windows := rfl

@[simp] theorem updateTaskbarItem_windowZIndex (a : String) (b : Bool) (s : Desktop) :
    (updateTaskbarItem a b s).windowZIndex = s.windowZIndex := rfl

@[simp] theorem updateTaskbarItem_activeWindow (a : String) (b : Bool) (s : Desktop) :
    (updateTaskbarItem a b s).activeWindow = s.activeWindow := rfl

@[simp] theorem removeFromTaskbar_windows (a : String) (s : Desktop) :
    (removeFromTaskbar a s).windows = s.windows := rfl

@[simp] theorem removeFromTaskbar_windowZIndex (a : String) (s : Desktop) :
    (removeFromTaskbar a s).windowZIndex = s.windowZIndex := rfl

@[simp] theorem addToTaskbar_windows (a t : String) (s : Desktop) :
    (addToTaskbar a t s).windows = s.windows := by
  unfold addToTaskbar; split <;> rfl

@[simp] theorem addToTaskbar_windowZIndex (a t : String) (s : Desktop) :
    (addToTaskbar a t s).windowZIndex = s.windowZIndex := by
  unfold addToTaskbar; split <;> rfl

@[simp] theorem addToTaskbar_activeWindow (a t : String) (s : Desktop) :
    (addToTaskbar a t s).activeWindow = s.activeWindow := by
  unfold addToTaskbar; split <;> rfl

@[simp] theorem modifyWindow_windows (f : Window → Window) (window : Nat) (s : Desktop) :
    (modifyWindow f window s).windows = s.windows.modify f window := rfl

@[simp] theorem modifyWindow_windowZIndex (f : Window → Window) (window : Nat) (s : Desktop) :
    (modifyWindow f window s).windowZIndex = s.windowZIndex := rfl

@[simp] theorem modifyWindow_activeWindow (f : Window → Window) (window : Nat) (s : Desktop) :
    (modifyWindow f window s).activeWindow = s.activeWindow := rfl

@[simp] theorem modifyWindow_taskbar (f : Window → Window) (window : Nat) (s : Desktop) :
    (modifyWindow f window s).taskbar = s.taskbar := rfl

theorem setActiveWindow_windows (window : Nat) (s : Desktop) (i : Nat) :
    (setActiveWindow window s).windows[i]? =
      (s.windows[i]?).map (activated window (s.windowZIndex + 1) i) := by
  unfold setActiveWindow
  simp only []
  split <;>
  · simp only [updateTaskbarItem_windows, modifyWindow_windows, deactivateAll,
      List.getElem?_modify, List.getElem?_map]
    cases s.windows[i]? <;> simp [activated]

@[simp] theorem setActiveWindow_windowZIndex (window : Nat) (s : Desktop) :
    (setActiveWindow window s).windowZIndex = s.windowZIndex + 1 := by
  unfold setActiveWindow
  simp only []
  split <;> simp [deactivateAll]

@[simp] theorem setActiveWindow_activeWindow (window : Nat) (s : Desktop) :
    (setActiveWindow window s).activeWindow = some window := by
  unfold setActiveWindow
  simp only []
  split <;> simp [deactivateAll]

theorem querySelectorAll_getLast (p : Window → Bool) (s : Desktop) (v : Nat)
    (h : (querySelectorAll p s).getLast? = some v) :
    ∃ x, s.windows[v]? = some x ∧ p x = true := by
  have hm := List.mem_of_getLast?_eq_some h
  unfold querySelectorAll at hm
  rw [List.mem_filter] at hm
  obtain ⟨_, h2⟩ := hm
  cases hx : s.windows[v]? with
  | none => simp [hx] at h2
  | some x => exact ⟨x, rfl, by simpa [hx] using h2⟩

/-! ## At most one active window -/

theorem AtMostOneActive.within {ws1 ws2 : List Window} (h : AtMostOneActive ws1)
    (hw : ActiveWithin ws1 ws2) : AtMostOneActive ws2 := by
  intro i j x y hx hy hxa hya
  obtain ⟨x1, hx1, hx1a⟩ := hw i x hx hxa
  obtain ⟨y1, hy1, hy1a⟩ := hw j y hy hya
  exact h i j x1 y1 hx1 hy1 hx1a hy1a

theorem activeWithin_refl (ws : List Window) : ActiveWithin ws ws :=
  fun _ y hy hya => ⟨y, hy, hya⟩

theorem activeWithin_modify (ws : List Window) (f : Window → Window) (n : Nat)
    (hf : ∀ w, (f w).active = true → w.active = true) : ActiveWithin ws (ws.modify f n) := by
  intro i y hy hya
  rw [List.getElem?_modify] at hy
  cases hx : ws[i]? with
  | none => simp [hx] at hy
  | some x =>
    simp only [hx, Option.map_eq_map, Option.map_some', Option.some.injEq] at hy
    refine ⟨x, rfl, ?_⟩
    subst hy
    split at hya
    · exact hf x hya
    · exact hya

theorem atMostOneActive_setActiveWindow (window : Nat) (s : Desktop) :
    AtMostOneActive (setActiveWindow window s).windows := by
  intro i j x y hx hy hxa hya
  rw [setActiveWindow_windows] at hx hy
  cases hx0 : s.windows[i]? with
  | none => simp [hx0] at hx
  | some x0 =>
    cases hy0 : s.windows[j]? with
    | none => simp [hy0] at hy
    | some y0 =>
      simp only [hx0, hy0, Option.map_some', Option.some.injEq] at hx hy
      subst hx; subst hy
      unfold activated at hxa hya
      split at hxa
      · split at hya
        · omega
        · simp at hya
      · simp at hxa



theorem atMostOneActive_modifyWindow (f : Window → Window) (window : Nat) (s : Desktop)
    (hf : ∀ w, (f w).active = true → w.active = true) (h : AtMostOneActive s.windows) :
    AtMostOneActive (modifyWindow f window s).windows :=
  h.within (activeWithin_modify _ _ _ hf)

theorem atMostOneActive_activateLast (p : Window → Bool) (s : Desktop)
    (h : AtMostOneActive s.windows) : AtMostOneActive (activateLast p s).windows := by
  unfold activateLast
  split
  · exact atMostOneActive_setActiveWindow _ _
  · exact h

theorem atMostOneActive_openWindow (windowId : String) (s : Desktop)
    (h : AtMostOneActive s.windows) : AtMostOneActive (openWindow windowId s).windows := by
  unfold openWindow
  split
  · exact h
  · simp only []
    split
    · simpa using atMostOneActive_setActiveWindow _ _
    · simpa using atMostOneActive_setActiveWindow _ _

theorem atMostOneActive_restoreWindow (windowId : String) (s : Desktop)
    (h : AtMostOneActive s.windows) : AtMostOneActive (restoreWindow windowId s).windows := by
  unfold restoreWindow
  split
  · exact h
  · simpa using atMostOneActive_setActiveWindow _ _

theorem atMostOneActive_closeWindow (window : Nat) (s : Desktop)
    (h : AtMostOneActive s.windows) : AtMostOneActive (closeWindow window s).windows :=
  atMostOneActive_modifyWindow _ _ _ (fun _ hw => hw) h

theorem atMostOneActive_minimizeWindow (window : Nat) (s : Desktop)
    (h : AtMostOneActive s.windows) : AtMostOneActive (minimizeWindow window s).windows :=
  atMostOneActive_modifyWindow _ _ _ (fun _ hw => hw) h

theorem atMostOneActive_runTimer (t : Timer) (s : Desktop)
    (h : AtMostOneActive s.windows) : AtMostOneActive (runTimer t s).windows := by
  cases t with
  | openWindow window => exact atMostOneActive_modifyWindow _ _ _ (fun _ hw => hw) h
  | closeWindow window =>
    unfold runTimer closeWindowTimeout
    simp only []
    apply atMostOneActive_activateLast
    have h1 := atMostOneActive_modifyWindow
      (fun w => { w with display := Display.none, closing := false, active := false,
                         inactive := false }) window s (fun _ hw => by simp at hw) h
    split
    · exact h1
    · exact h1
  | minimizeWindow window =>
    unfold runTimer minimizeWindowTimeout
    simp only []
    have h1 := atMostOneActive_modifyWindow
      (fun w => { w with display := Display.none, minimizing := false, active := false,
                         inactive := true }) window s (fun _ hw => by simp at hw) h
    have h2 := atMostOneActive_activateLast styleBlockNotInactive _ h1
    split
    · exact h2
    · exact h2

theorem atMostOneActive_timeout (i : Nat) (s : Desktop)
    (h : AtMostOneActive s.windows) : AtMostOneActive (timeout i s).windows := by
  unfold timeout
  split
  · exact h
  · exact atMostOneActive_runTimer _ _ h

theorem atMostOneActive_iterate (windowId : String) (n : Nat) (s : Desktop)
    (h : AtMostOneActive s.windows) :
    AtMostOneActive (Nat.iterate (openWindow windowId) n s).windows := by
  induction n generalizing s with
  | zero => exact h
  | succ n ih => exact ih _ (atMostOneActive_openWindow _ _ h)

theorem atMostOneActive_applyEvent (e : Event) (s : Desktop)
    (h : AtMostOneActive s.windows) : AtMostOneActive (applyEvent e s).windows := by
  cases e with
  | openWindow windowId => exact atMostOneActive_openWindow _ _ h
  | restoreWindow windowId => exact atMostOneActive_restoreWindow _ _ h
  | closeWindow window =>
    simp only [applyEvent]; split
    · exact atMostOneActive_closeWindow _ _ h
    · exact h
  | minimizeWindow window =>
    simp only [applyEvent]; split
    · exact atMostOneActive_minimizeWindow _ _ h
    · exact h
  | setActiveWindow window =>
    simp only [applyEvent]; split
    · exact atMostOneActive_setActiveWindow _ _
    · exact h
  | timeout i => exact atMostOneActive_timeout _ _ h
  | taskbarItemClick windowId =>
    simp only [applyEvent]; split
    · unfold taskbarItemClick
      split
      · exact h
      · split
        · exact h
        · split
          · exact atMostOneActive_restoreWindow _ _ h
          · exact atMostOneActive_minimizeWindow _ _ h
    · exact h
  | click t =>
    simp only [applyEvent]; split
    · have h1 : AtMostOneActive (controlClick t s).state.windows := by
        unfold controlClick closeWindowCall minimizeWindowCall
        rcases t with ⟨cb, mb, _ | w, tb⟩ <;> cases cb <;> cases mb <;>
          simp [h, atMostOneActive_closeWindow, atMostOneActive_minimizeWindow]
      unfold documentClick windowClick
      simp only []
      split
      · exact h1
      · split
        · split
          · exact atMostOneActive_setActiveWindow _ _
          · exact h1
        · exact h1
    · exact h
  | mousedown t clientX clientY =>
    simp only [applyEvent]; split
    · unfold mousedown
      split
      · exact h
      · exact h
      · split
        · exact h
        · exact atMostOneActive_setActiveWindow _ _
    · exact h
  | mousemove clientX clientY innerWidth innerHeight =>
    simp only [applyEvent, mousemove]
    split
    · exact atMostOneActive_modifyWindow _ _ _ (fun _ hw => hw) h
    · exact h
  | mouseup => exact h
  | dblclick icon =>
    simp only [applyEvent, iconDblclick]
    split
    · exact h
    · exact atMostOneActive_iterate _ _ _ h
  | addDesktopIcon iconData => exact h

theorem atMostOneActive_run (es : List Event) (s : Desktop)
    (h : AtMostOneActive s.windows) : AtMostOneActive (run es s).windows := by
  induction es generalizing s with
  | nil => exact h
  | cons e es ih => exact ih _ (atMostOneActive_applyEvent e s h)

/-! ## The `zIndex` counter -/

theorem quiet_refl (ws : List Window) : Quiet ws ws :=
  fun _ y hy => ⟨y, hy, rfl, id, id⟩

theorem quiet_modify (ws : List Window) (f : Window → Window) (n : Nat)
    (hz : ∀ w, (f w).zIndex = w.zIndex) (ha : ∀ w, (f w).active = true → w.active = true)
    (hd : ∀ w, (f w).display = Display.block → w.display = Display.block) :
    Quiet ws (ws.modify f n) := by
  intro i y hy
  rw [List.getElem?_modify] at hy
  cases hx : ws[i]? with
  | none => simp [hx] at hy
  | some x =>
    simp only [hx, Option.map_eq_map, Option.map_some', Option.some.injEq] at hy
    refine ⟨x, rfl, ?_⟩
    subst hy
    split
    · exact ⟨hz x, ha x, hd x⟩
    · exact ⟨rfl, id, id⟩

theorem zInv_quiet {s s' : Desktop} (hc : s'.windowZIndex = s.windowZIndex)
    (hq : Quiet s.windows s'.windows) (h : ZInv s) : ZInv s' := by
  obtain ⟨hb, ht⟩ := h
  constructor
  · intro i y hy
    obtain ⟨x, hx, hz, _, _⟩ := hq i y hy
    rw [hz, hc]
    exact hb i x hx
  · intro i j x y hx hy hxa hji hyd
    obtain ⟨x1, hx1, hz1, ha1, _⟩ := hq i x hx
    obtain ⟨y1, hy1, hz2, _, hd2⟩ := hq j y hy
    rw [hz1, hz2]
    exact ht i j x1 y1 hx1 hy1 (ha1 hxa) hji (hd2 hyd)

theorem zStep_quiet {s s' : Desktop} (hc : s'.windowZIndex = s.windowZIndex)
    (hq : Quiet s.windows s'.windows) : ZStep s s' :=
  ⟨by rw [hc], zInv_quiet hc hq⟩

theorem zStep_refl (s : Desktop) : ZStep s s :=
  ⟨le_refl _, id⟩

theorem zStep_trans {s1 s2 s3 : Desktop} (h1 : ZStep s1 s2) (h2 : ZStep s2 s3) : ZStep s1 s3 :=
  ⟨le_trans h1.1 h2.1, fun h => h2.2 (h1.2 h)⟩

theorem zInv_setActiveWindow (window : Nat) (s : Desktop) (h : ZBounded s) :
    ZInv (setActiveWindow window s) := by
  constructor
  · intro i y hy
    rw [setActiveWindow_windows] at hy
    cases hx : s.windows[i]? with
    | none => simp [hx] at hy
    | some x =>
      simp only [hx, Option.map_some', Option.some.injEq] at hy
      subst hy
      have := h i x hx
      unfold activated
      split
      · simp
      · simp; omega
  · intro i j x y hx hy hxa hji _
    rw [setActiveWindow_windows] at hx hy
    cases hx0 : s.windows[i]? with
    | none => simp [hx0] at hx
    | some x0 =>
      cases hy0 : s.windows[j]? with
      | none => simp [hy0] at hy
      | some y0 =>
        simp only [hx0, hy0, Option.map_some', Option.some.injEq] at hx hy
        subst hx; subst hy
        have := h j y0 hy0
        unfold activated at hxa ⊢
        split at hxa
        · rename_i hw
          rw [if_pos hw, if_neg (by omega)]
          simp
          omega
        · simp at hxa

theorem zStep_setActiveWindow (window : Nat) (s : Desktop) :
    ZStep s (setActiveWindow window s) :=
  ⟨by simp, fun h => zInv_setActiveWindow window s h.1⟩

theorem zStep_activateLast (p : Window → Bool) (s : Desktop) : ZStep s (activateLast p s) := by
  unfold activateLast
  split
  · exact zStep_setActiveWindow _ _
  · exact zStep_quiet rfl (quiet_refl _)

theorem zBounded_modifyWindow (s : Desktop) (f : Window → Window) (n : Nat)
    (hz : ∀ w, (f w).zIndex = w.zIndex) (h : ZBounded s) :
    ZBounded (modifyWindow f n s) := by
  intro i y hy
  simp only [modifyWindow_windows, List.getElem?_modify] at hy
  cases hx : s.windows[i]? with
  | none => simp [hx] at hy
  | some x =>
    simp only [hx, Option.map_eq_map, Option.map_some', Option.some.injEq] at hy
    subst hy
    have := h i x hx
    split
    · rw [hz]; exact this
    · exact this

theorem zStep_modifyWindow (s : Desktop) (f : Window → Window) (n : Nat)
    (hz : ∀ w, (f w).zIndex = w.zIndex) (ha : ∀ w, (f w).active = true → w.active = true)
    (hd : ∀ w, (f w).display = Display.block → w.display = Display.block) :
    ZStep s (modifyWindow f n s) :=
  zStep_quiet rfl (quiet_modify _ _ _ hz ha hd)

theorem zStep_openWindow (windowId : String) (s : Desktop) : ZStep s (openWindow windowId s) := by
  unfold openWindow
  split
  · exact zStep_refl _
  · rename_i window _
    have hb : ZInv s → ZInv (setActiveWindow window (modifyWindow
        (fun w => { w with display := Display.block, opening := true }) window s)) :=
      fun h => zInv_setActiveWindow _ _ (zBounded_modifyWindow s _ _ (fun _ => rfl) h.1)
    simp only []
    split
    · refine ⟨by simp, fun h => ?_⟩
      exact zInv_quiet (by simp) (by simpa using quiet_refl _) (hb h)
    · refine ⟨by simp, fun h => ?_⟩
      exact zInv_quiet (by simp) (by simpa using quiet_refl _) (hb h)

theorem zStep_restoreWindow (windowId : String) (s : Desktop) :
    ZStep s (restoreWindow windowId s) := by
  unfold restoreWindow
  split
  · exact zStep_refl _
  · rename_i window _
    have hb : ZInv s → ZInv (setActiveWindow window (modifyWindow
        (fun w => { w with display := Display.block, inactive := false }) window s)) :=
      fun h => zInv_setActiveWindow _ _ (zBounded_modifyWindow s _ _ (fun _ => rfl) h.1)
    refine ⟨by simp, fun h => ?_⟩
    exact zInv_quiet (by simp) (by simpa using quiet_refl _) (hb h)

theorem zStep_closeWindow (window : Nat) (s : Desktop) : ZStep s (closeWindow window s) :=
  zStep_trans
    (zStep_modifyWindow s (fun w => { w with closing := true }) window
      (fun _ => rfl) (fun _ h => h) (fun _ h => h))
    (zStep_quiet rfl (quiet_refl _))

theorem zStep_minimizeWindow (window : Nat) (s : Desktop) :
    ZStep s (minimizeWindow window s) :=
  zStep_trans
    (zStep_modifyWindow s (fun w => { w with minimizing := true }) window
      (fun _ => rfl) (fun _ h => h) (fun _ h => h))
    (zStep_quiet rfl (quiet_refl _))

theorem zStep_runTimer (t : Timer) (s : Desktop) : ZStep s (runTimer t s) := by
  cases t with
  | openWindow window =>
    exact zStep_modifyWindow s _ window (fun _ => rfl) (fun _ h => h) (fun _ h => h)
  | closeWindow window =>
    unfold runTimer closeWindowTimeout
    simp only []
    refine zStep_trans ?_ (zStep_activateLast _ _)
    have h1 := zStep_modifyWindow s
      (fun w => { w with display := Display.none, closing := false, active := false,
                         inactive := false }) window
      (fun _ => rfl) (fun _ h => by simp at h) (fun _ h => by simp at h)
    split
    · exact zStep_trans h1 (zStep_quiet rfl (quiet_refl _))
    · exact h1
  | minimizeWindow window =>
    unfold runTimer minimizeWindowTimeout
    simp only []
    have h1 := zStep_modifyWindow s
      (fun w => { w with display := Display.none, minimizing := false, active := false,
                         inactive := true }) window
      (fun _ => rfl) (fun _ h => by simp at h) (fun _ h => by simp at h)
    have h2 := zStep_trans h1 (zStep_activateLast styleBlockNotInactive _)
    split
    · exact zStep_trans h2 (zStep_quiet rfl (quiet_refl _))
    · exact h2

theorem zStep_timeout (i : Nat) (s : Desktop) : ZStep s (timeout i s) := by
  unfold timeout
  split
  · exact zStep_refl _
  · exact zStep_trans (zStep_quiet rfl (quiet_refl _)) (zStep_runTimer _ _)

theorem zStep_iterate (windowId : String) (n : Nat) (s : Desktop) :
    ZStep s (Nat.iterate (openWindow windowId) n s) := by
  induction n generalizing s with
  | zero => exact zStep_refl _
  | succ n ih => exact zStep_trans (zStep_openWindow _ _) (ih _)

theorem zStep_applyEvent (e : Event) (s : Desktop) : ZStep s (applyEvent e s) := by
  cases e with
  | openWindow windowId => exact zStep_openWindow _ _
  | restoreWindow windowId => exact zStep_restoreWindow _ _
  | closeWindow window =>
    simp only [applyEvent]; split
    · exact zStep_closeWindow _ _
    · exact zStep_refl _
  | minimizeWindow window =>
    simp only [applyEvent]; split
    · exact zStep_minimizeWindow _ _
    · exact zStep_refl _
  | setActiveWindow window =>
    simp only [applyEvent]; split
    · exact zStep_setActiveWindow _ _
    · exact zStep_refl _
  | timeout i => exact zStep_timeout _ _
  | taskbarItemClick windowId =>
    simp only [applyEvent]; split
    · unfold taskbarItemClick
      split
      · exact zStep_refl _
      · split
        · exact zStep_refl _
        · split
          · exact zStep_restoreWindow _ _
          · exact zStep_minimizeWindow _ _
    · exact zStep_refl _
  | click t =>
    simp only [applyEvent]; split
    · have h1 : ZStep s (controlClick t s).state := by
        unfold controlClick closeWindowCall minimizeWindowCall
        rcases t with ⟨cb, mb, _ | w, tb⟩ <;> cases cb <;> cases mb <;>
          simp [zStep_refl, zStep_closeWindow, zStep_minimizeWindow]
        exact zStep_trans (zStep_closeWindow _ _) (zStep_minimizeWindow _ _)
      refine zStep_trans h1 ?_
      unfold documentClick windowClick
      simp only []
      split
      · exact zStep_refl _
      · split
        · split
          · exact zStep_setActiveWindow _ _
          · exact zStep_refl _
        · exact zStep_refl _
    · exact zStep_refl _
  | mousedown t clientX clientY =>
    simp only [applyEvent]; split
    · unfold mousedown
      split
      · exact zStep_refl _
      · exact zStep_refl _
      · split
        · exact zStep_refl _
        · exact zStep_trans (zStep_quiet rfl (quiet_refl _)) (zStep_setActiveWindow _ _)
    · exact zStep_refl _
  | mousemove clientX clientY innerWidth innerHeight =>
    simp only [applyEvent, mousemove]
    split
    · exact zStep_modifyWindow s _ _ (fun _ => rfl) (fun _ h => h) (fun _ h => h)
    · exact zStep_refl _
  | mouseup => exact zStep_quiet rfl (quiet_refl _)
  | dblclick icon =>
    simp only [applyEvent, iconDblclick]
    split
    · exact zStep_refl _
    · exact zStep_iterate _ _ _
  | addDesktopIcon iconData => exact zStep_quiet rfl (quiet_refl _)

theorem zStep_run (es : List Event) (s : Desktop) : ZStep s (run es s) := by
  induction es generalizing s with
  | nil => exact zStep_refl _
  | cons e es ih => exact zStep_trans (zStep_applyEvent e s) (ih _)

theorem activeOnTop_of_no_active (s : Desktop) (h : ∀ w ∈ s.windows, w.active = false) :
    ActiveOnTop s := by
  intro i j x y hx _ hxa
  have := h x (List.getElem?_mem hx)
  rw [this] at hxa
  exact absurd hxa (by decide)

theorem getLast?_filter_range (p : Nat → Bool) (n v : Nat) (hv : v < n) (hp : p v = true)
    (hmax : ∀ u, u < n → p u = true → u ≤ v) :
    ((List.range n).filter p).getLast? = some v := by
  induction n with
  | zero => omega
  | succ n ih =>
    rw [List.range_succ, List.filter_append]
    by_cases hn : p n = true
    · have h1 : n ≤ v := hmax n (by omega) hn
      have h2 : v = n := by omega
      subst h2
      simp [List.filter_cons, hn]
    · have h2 : v ≠ n := fun h => hn (h ▸ hp)
      have h3 : ((List.range n).filter p).getLast? = some v :=
        ih (by omega) (fun u hu hpu => hmax u (by omega) hpu)
      simp [List.filter_cons, hn, h3]

/-! ## Taskbar facts -/

theorem map_modifyFirst {α β : Type} (p : α → Bool) (f : α → α) (g : α → β)
    (hg : ∀ x, g (f x) = g x) (l : List α) : (modifyFirst p f l).map g = l.map g := by
  induction l with
  | nil => rfl
  | cons x xs ih =>
    unfold modifyFirst
    split
    · simp [hg]
    · simp [ih]

theorem hasTaskbarItem_eq (windowId : String) (s : Desktop) :
    hasTaskbarItem windowId s = (plainId windowId && decide (windowId ∈ taskbarIds s)) := by
  unfold hasTaskbarItem taskbarIds selects
  cases hp : plainId windowId
  · simp
  · induction s.taskbar with
    | nil => simp
    | cons t ts ih =>
      simp only [List.any_cons, Bool.true_and, List.map_cons, List.mem_cons] at ih ⊢
      rw [ih]
      by_cases h : t.windowId = windowId
      · simp [h]
      · have h2 : ¬ windowId = t.windowId := fun e => h e.symm
        simp [h, h2]

theorem hasTaskbarItem_iff (windowId : String) (s : Desktop) (hp : plainId windowId = true) :
    hasTaskbarItem windowId s = true ↔ windowId ∈ taskbarIds s := by
  rw [hasTaskbarItem_eq, hp]
  simp

theorem hasTaskbarItem_congr (windowId : String) (s s' : Desktop)
    (h : taskbarIds s' = taskbarIds s) :
    hasTaskbarItem windowId s' = hasTaskbarItem windowId s := by
  rw [hasTaskbarItem_eq, hasTaskbarItem_eq, h]

@[simp] theorem taskbarLabels_updateTaskbarItem (a : String) (b : Bool) (s : Desktop) :
    taskbarLabels (updateTaskbarItem a b s) = taskbarLabels s := by
  unfold taskbarLabels updateTaskbarItem
  simp only []
  apply map_modifyFirst
  intro _
  rfl

@[simp] theorem taskbarIds_updateTaskbarItem (a : String) (b : Bool) (s : Desktop) :
    taskbarIds (updateTaskbarItem a b s) = taskbarIds s := by
  unfold taskbarIds updateTaskbarItem
  simp only []
  apply map_modifyFirst
  intro _
  rfl

@[simp] theorem taskbarLabels_setActiveWindow (window : Nat) (s : Desktop) :
    taskbarLabels (setActiveWindow window s) = taskbarLabels s := by
  unfold setActiveWindow
  simp only []
  split
  · rw [taskbarLabels_updateTaskbarItem]; rfl
  · rfl

@[simp] theorem taskbarIds_setActiveWindow (window : Nat) (s : Desktop) :
    taskbarIds (setActiveWindow window s) = taskbarIds s := by
  unfold setActiveWindow
  simp only []
  split
  · rw [taskbarIds_updateTaskbarItem]; rfl
  · rfl

theorem getElementById_some (windowId : String) (s : Desktop) (window : Nat)
    (h : getElementById windowId s = some window) :
    ∃ w, s.windows[window]? = some w ∧ w.id = windowId := by
  unfold getElementById at h
  have h1 := List.findIdx?_of_eq_some h
  cases hw : s.windows[window]? with
  | none => simp [hw] at h1
  | some w =>
    refine ⟨w, rfl, ?_⟩
    simpa [hw] using h1

theorem openWindow_taskbarLabels (s : Desktop) (windowId : String) (window : Nat) (w : Window)
    (hid : getElementById windowId s = some window) (hw : s.windows[window]? = some w) :
    taskbarLabels (openWindow windowId s) =
      if hasTaskbarItem windowId s then taskbarLabels s
      else taskbarLabels s ++ [(windowId, w.title)] := by
  unfold openWindow
  rw [hid]
  simp only []
  have hs2 : (setActiveWindow window (modifyWindow
      (fun w => { w with display := Display.block, opening := true }) window s)).windows[window]?
      = some (activated window (s.windowZIndex + 1) window
          { w with display := Display.block, opening := true }) := by
    rw [setActiveWindow_windows]
    simp [hw]
  rw [hs2]
  simp only []
  have hh : hasTaskbarItem windowId (setActiveWindow window (modifyWindow
      (fun w => { w with display := Display.block, opening := true }) window s))
      = hasTaskbarItem windowId s :=
    hasTaskbarItem_congr _ _ _ (by rw [taskbarIds_setActiveWindow]; rfl)
  have hl : taskbarLabels (setActiveWindow window (modifyWindow
      (fun w => { w with display := Display.block, opening := true }) window s))
      = taskbarLabels s := by
    rw [taskbarLabels_setActiveWindow]; rfl
  unfold addToTaskbar
  rw [hh]
  cases hb : hasTaskbarItem windowId s
  · simp only [Bool.false_eq_true, if_false]
    show List.map _ (_ ++ _) = _
    rw [List.map_append]
    unfold taskbarLabels at hl
    rw [hl]
    simp [taskbarLabels, activated]
  · simp only [if_true]
    exact hl

theorem taskbarIds_eq (s : Desktop) : taskbarIds s = (taskbarLabels s).map Prod.fst := by
  unfold taskbarIds taskbarLabels
  rw [List.map_map]
  rfl

theorem openWindow_windows (s : Desktop) (windowId : String) (window : Nat)
    (hid : getElementById windowId s = some window) :
    (openWindow windowId s).windows = (setActiveWindow window (modifyWindow
      (fun w => { w with display := Display.block, opening := true }) window s)).windows := by
  unfold openWindow
  rw [hid]
  simp only []
  split <;> simp

theorem openWindow_activeWindow (s : Desktop) (windowId : String) (window : Nat)
    (hid : getElementById windowId s = some window) :
    (openWindow windowId s).activeWindow = some window := by
  unfold openWindow
  rw [hid]
  simp only []
  split <;> simp

/-! ## The taskbar mirrors the windows -/

theorem settles_refl (x : Window) : Settles x x :=
  ⟨rfl, Or.inl ⟨rfl, fun _ h => h⟩⟩

theorem taskbarInv_of_settles (s s' : Desktop) (hids : taskbarIds s' = taskbarIds s)
    (hw : ∀ (i : Nat) (y : Window), s'.windows[i]? = some y →
      ∃ x, s.windows[i]? = some x ∧ Settles x y)
    (h : TaskbarInv s) : TaskbarInv s' := by
  obtain ⟨hu, hn, hm, hp⟩ := h
  refine ⟨?_, by rw [hids]; exact hn, ?_, ?_⟩
  · intro i j x y hx hy hxy
    obtain ⟨x1, hx1, hsx, _⟩ := hw i x hx
    obtain ⟨y1, hy1, hsy, _⟩ := hw j y hy
    exact hu i j x1 y1 hx1 hy1 (by rw [← hsx, ← hsy]; exact hxy)
  swap
  · intro i y hy
    obtain ⟨x, hx, hid, _⟩ := hw i y hy
    rw [hid]
    exact hp i x hx
  · intro i y hy
    obtain ⟨x, hx, hid, hs⟩ := hw i y hy
    obtain ⟨m1, m2⟩ := hm i x hx
    unfold Mirrored
    rw [hids, hid]
    rcases hs with ⟨hd, hi⟩ | ⟨hd, hi⟩
    · rw [hd]
      refine ⟨m1, fun hmem => ?_⟩
      rcases m2 hmem with hb | ⟨hb, hc⟩
      · exact Or.inl hb
      · exact Or.inr ⟨hb, hi hb hc⟩
    · refine ⟨fun hb => ?_, fun _ => Or.inr ⟨hd, hi⟩⟩
      rw [hd] at hb
      exact absurd hb (by decide)

theorem taskbarInv_congr (s s' : Desktop) (hw : s'.windows = s.windows)
    (hids : taskbarIds s' = taskbarIds s) (h : TaskbarInv s) : TaskbarInv s' :=
  taskbarInv_of_settles s s' hids
    (fun i y hy => ⟨y, by rw [← hw]; exact hy, settles_refl y⟩) h

theorem taskbarInv_modifyWindow (f : Window → Window) (window : Nat) (s : Desktop)
    (hf : ∀ x, Settles x (f x)) (h : TaskbarInv s) : TaskbarInv (modifyWindow f window s) := by
  refine taskbarInv_of_settles s (modifyWindow f window s) rfl ?_ h
  intro i y hy
  rw [modifyWindow_windows, List.getElem?_modify] at hy
  cases hx : s.windows[i]? with
  | none => simp [hx] at hy
  | some x =>
    simp only [hx, Option.map_eq_map, Option.map_some', Option.some.injEq] at hy
    refine ⟨x, rfl, ?_⟩
    subst hy
    split
    · exact hf x
    · exact settles_refl x

theorem taskbarInv_setActiveWindow (window : Nat) (s : Desktop)
    (hd : ∀ x, s.windows[window]? = some x → x.display = Display.block)
    (h : TaskbarInv s) : TaskbarInv (setActiveWindow window s) := by
  refine taskbarInv_of_settles s _ (taskbarIds_setActiveWindow window s) ?_ h
  intro i y hy
  rw [setActiveWindow_windows] at hy
  cases hx : s.windows[i]? with
  | none => simp [hx] at hy
  | some x =>
    simp only [hx, Option.map_some', Option.some.injEq] at hy
    refine ⟨x, rfl, ?_⟩
    subst hy
    unfold activated
    split
    · rename_i hwi
      subst hwi
      have := hd x hx
      exact ⟨rfl, Or.inl ⟨rfl, fun hn => by rw [this] at hn; exact absurd hn (by decide)⟩⟩
    · exact ⟨rfl, Or.inl ⟨rfl, fun _ _ => rfl⟩⟩

theorem taskbarInv_activateLast (p : Window → Bool) (s : Desktop)
    (hp : ∀ x, p x = true → x.display = Display.block)
    (h : TaskbarInv s) : TaskbarInv (activateLast p s) := by
  unfold activateLast
  split
  · rename_i v hv
    obtain ⟨x, hx, hpx⟩ := querySelectorAll_getLast p s v hv
    apply taskbarInv_setActiveWindow _ _ _ h
    intro x' hx'
    rw [hx] at hx'
    cases hx'
    exact hp x hpx
  · exact taskbarInv_congr s _ rfl rfl h

theorem styleBlock_display (x : Window) (h : styleBlock x = true) : x.display = Display.block := by
  unfold styleBlock at h
  simpa using h

theorem styleBlockNotInactive_display (x : Window) (h : styleBlockNotInactive x = true) :
    x.display = Display.block := by
  unfold styleBlockNotInactive at h
  simp at h
  exact h.1

theorem taskbarInv_closeWindow (window : Nat) (s : Desktop) (h : TaskbarInv s) :
    TaskbarInv (closeWindow window s) := by
  unfold closeWindow
  exact taskbarInv_congr _ _ rfl rfl
    (taskbarInv_modifyWindow (fun w => { w with closing := true }) window s
      (fun x => settles_refl x) h)

theorem taskbarInv_minimizeWindow (window : Nat) (s : Desktop) (h : TaskbarInv s) :
    TaskbarInv (minimizeWindow window s) := by
  unfold minimizeWindow
  exact taskbarInv_congr _ _ rfl rfl
    (taskbarInv_modifyWindow (fun w => { w with minimizing := true }) window s
      (fun x => settles_refl x) h)

theorem getElem?_modify_cases {α : Type} (f : α → α) (l : List α) (window i : Nat) (y : α)
    (hy : (l.modify f window)[i]? = some y) :
    ∃ x, l[i]? = some x ∧ ((i = window ∧ y = f x) ∨ (i ≠ window ∧ y = x)) := by
  rw [List.getElem?_modify] at hy
  cases hx : l[i]? with
  | none => simp [hx] at hy
  | some x =>
    simp only [hx, Option.map_eq_map, Option.map_some', Option.some.injEq] at hy
    refine ⟨x, rfl, ?_⟩
    subst hy
    split
    · rename_i hwi
      exact Or.inl ⟨hwi.symm, rfl⟩
    · rename_i hwi
      exact Or.inr ⟨fun e => hwi e.symm, rfl⟩

theorem taskbarIds_removeFromTaskbar (a : String) (s : Desktop) (hp : plainId a = true) :
    taskbarIds (removeFromTaskbar a s) = (taskbarIds s).erase a := by
  unfold taskbarIds removeFromTaskbar
  simp only []
  induction s.taskbar with
  | nil => rfl
  | cons t ts ih =>
    by_cases h : t.windowId = a
    · simp [List.eraseP_cons, List.erase_cons, selects, hp, h]
    · simp [List.eraseP_cons, List.erase_cons, selects, hp, h, ih]

theorem taskbarInv_updateTaskbarItem (a : String) (b : Bool) (s : Desktop)
    (h : TaskbarInv s) : TaskbarInv (updateTaskbarItem a b s) :=
  taskbarInv_congr s (updateTaskbarItem a b s) rfl (taskbarIds_updateTaskbarItem a b s) h

theorem idsUnique_modify (f : Window → Window) (window : Nat) (ws : List Window)
    (hf : ∀ x, (f x).id = x.id) (h : IdsUnique ws) : IdsUnique (ws.modify f window) := by
  intro i j x y hx hy hxy
  obtain ⟨x1, hx1, hcx⟩ := getElem?_modify_cases f ws window i x hx
  obtain ⟨y1, hy1, hcy⟩ := getElem?_modify_cases f ws window j y hy
  have e1 : x.id = x1.id := by
    rcases hcx with ⟨_, e⟩ | ⟨_, e⟩
    · rw [e, hf]
    · rw [e]
  have e2 : y.id = y1.id := by
    rcases hcy with ⟨_, e⟩ | ⟨_, e⟩
    · rw [e, hf]
    · rw [e]
  exact h i j x1 y1 hx1 hy1 (by rw [← e1, ← e2]; exact hxy)

theorem plainIds_modify (f : Window → Window) (window : Nat) (ws : List Window)
    (hf : ∀ x, (f x).id = x.id)
    (h : ∀ (i : Nat) (x : Window), ws[i]? = some x → plainId x.id = true) :
    ∀ (i : Nat) (y : Window), (ws.modify f window)[i]? = some y → plainId y.id = true := by
  intro i y hy
  obtain ⟨x, hx, hc⟩ := getElem?_modify_cases f ws window i y hy
  rcases hc with ⟨_, e⟩ | ⟨_, e⟩
  · rw [e, hf]
    exact h i x hx
  · rw [e]
    exact h i x hx

theorem taskbarInv_closeWindowTimeout (window : Nat) (s : Desktop) (h : TaskbarInv s) :
    TaskbarInv (closeWindowTimeout window s) := by
  unfold closeWindowTimeout
  simp only []
  apply taskbarInv_activateLast _ _ styleBlock_display
  obtain ⟨hu, hn, hm, hp⟩ := h
  cases hw : s.windows[window]? with
  | none =>
    simp only [modifyWindow_windows, List.getElem?_modify_eq, hw, Option.map_eq_map,
      Option.map_none']
    refine taskbarInv_of_settles s _ rfl ?_ ⟨hu, hn, hm, hp⟩
    intro i y hy
    obtain ⟨x, hx, hc⟩ := getElem?_modify_cases _ _ _ _ _ hy
    rcases hc with ⟨hi, _⟩ | ⟨_, e⟩
    · subst hi
      rw [hw] at hx
      cases hx
    · exact ⟨x, hx, e ▸ settles_refl x⟩
  | some w =>
    simp only [modifyWindow_windows, List.getElem?_modify_eq, hw, Option.map_eq_map,
      Option.map_some']
    have hpw : plainId w.id = true := hp window w hw
    refine ⟨idsUnique_modify _ _ _ (fun _ => rfl) hu, ?_, ?_,
      plainIds_modify _ _ _ (fun _ => rfl) hp⟩
    · rw [taskbarIds_removeFromTaskbar _ _ hpw]
      exact hn.erase _
    · intro i y hy
      obtain ⟨x, hx, hc⟩ := getElem?_modify_cases _ _ _ _ _ hy
      unfold Mirrored
      rw [taskbarIds_removeFromTaskbar _ _ hpw]
      show (y.display = Display.block → y.id ∈ (taskbarIds s).erase w.id) ∧
        (y.id ∈ (taskbarIds s).erase w.id → _)
      rw [hn.mem_erase_iff]
      rcases hc with ⟨hi, hyx⟩ | ⟨hi, hyx⟩
      · subst hi
        rw [hw] at hx
        cases hx
        subst hyx
        exact ⟨fun hb => by simp at hb, fun hmem => absurd rfl hmem.1⟩
      · subst hyx
        have hne : y.id ≠ w.id := fun e => hi (hu i window y w hx hw e)
        obtain ⟨m1, m2⟩ := hm i y hx
        exact ⟨fun hb => ⟨hne, m1 hb⟩, fun hmem => m2 hmem.2⟩

theorem taskbarInv_minimizeWindowTimeout (window : Nat) (s : Desktop) (h : TaskbarInv s) :
    TaskbarInv (minimizeWindowTimeout window s) := by
  unfold minimizeWindowTimeout
  simp only []
  have h1 := taskbarInv_modifyWindow
    (fun w => { w with display := Display.none, minimizing := false, active := false,
                       inactive := true }) window s (fun x => ⟨rfl, Or.inr ⟨rfl, rfl⟩⟩) h
  have h2 := taskbarInv_activateLast styleBlockNotInactive _ styleBlockNotInactive_display h1
  split
  · exact taskbarInv_updateTaskbarItem _ _ _ h2
  · exact h2

theorem taskbarInv_show (f : Window → Window) (window : Nat) (w : Window) (s : Desktop)
    (hf : ∀ x, (f x).id = x.id ∧ (f x).display = Display.block)
    (hw : s.windows[window]? = some w) (hmem : w.id ∈ taskbarIds s) (h : TaskbarInv s) :
    TaskbarInv (modifyWindow f window s) := by
  obtain ⟨hu, hn, hm, hp⟩ := h
  refine ⟨idsUnique_modify _ _ _ (fun x => (hf x).1) hu, hn, ?_,
    plainIds_modify _ _ _ (fun x => (hf x).1) hp⟩
  intro i y hy
  obtain ⟨x, hx, hc⟩ := getElem?_modify_cases _ _ _ _ _ hy
  rcases hc with ⟨hi, hyx⟩ | ⟨hi, hyx⟩
  · subst hi
    rw [hw] at hx
    cases hx
    subst hyx
    refine ⟨fun _ => ?_, fun _ => Or.inl (hf w).2⟩
    show (f w).id ∈ taskbarIds s
    rw [(hf w).1]
    exact hmem
  · subst hyx
    exact hm i y hx

theorem taskbarInv_restoreWindow (windowId : String) (s : Desktop)
    (hmem : windowId ∈ taskbarIds s) (h : TaskbarInv s) :
    TaskbarInv (restoreWindow windowId s) := by
  unfold restoreWindow
  split
  · exact h
  · rename_i window hid
    obtain ⟨w, hw, hwid⟩ := getElementById_some windowId s window hid
    simp only []
    apply taskbarInv_updateTaskbarItem
    have h1 := taskbarInv_show
      (fun w => { w with display := Display.block, inactive := false }) window w s
      (fun _ => ⟨rfl, rfl⟩) hw (hwid ▸ hmem) h
    apply taskbarInv_setActiveWindow _ _ _ h1
    intro x hx
    rw [modifyWindow_windows, List.getElem?_modify_eq, hw] at hx
    simp at hx
    rw [← hx]

theorem idsUnique_setActiveWindow (window : Nat) (s : Desktop) (h : IdsUnique s.windows) :
    IdsUnique (setActiveWindow window s).windows := by
  intro i j x y hx hy hxy
  rw [setActiveWindow_windows] at hx hy
  cases hx0 : s.windows[i]? with
  | none => simp [hx0] at hx
  | some x0 =>
    cases hy0 : s.windows[j]? with
    | none => simp [hy0] at hy
    | some y0 =>
      simp only [hx0, hy0, Option.map_some', Option.some.injEq] at hx hy
      subst hx; subst hy
      apply h i j x0 y0 hx0 hy0
      unfold activated at hxy
      split at hxy <;> split at hxy <;> exact hxy

theorem plainIds_setActiveWindow (window : Nat) (s : Desktop)
    (h : ∀ (i : Nat) (x : Window), s.windows[i]? = some x → plainId x.id = true) :
    ∀ (i : Nat) (y : Window), (setActiveWindow window s).windows[i]? = some y →
      plainId y.id = true := by
  intro i y hy
  rw [setActiveWindow_windows] at hy
  cases hx : s.windows[i]? with
  | none => simp [hx] at hy
  | some x =>
    simp only [hx, Option.map_some', Option.some.injEq] at hy
    subst hy
    have := h i x hx
    unfold activated
    split <;> exact this

theorem taskbarInv_openWindow (windowId : String) (s : Desktop) (h : TaskbarInv s) :
    TaskbarInv (openWindow windowId s) := by
  cases hid : getElementById windowId s with
  | none =>
    unfold openWindow
    rw [hid]
    exact h
  | some window =>
    obtain ⟨w, hw, hwid⟩ := getElementById_some windowId s window hid
    have hwin := openWindow_windows s windowId window hid
    have hlab := openWindow_taskbarLabels s windowId window w hid hw
    obtain ⟨hu, hn, hm, hp⟩ := h
    have hpw : plainId windowId = true := hwid ▸ hp window w hw
    have hids : taskbarIds (openWindow windowId s) =
        if hasTaskbarItem windowId s then taskbarIds s else taskbarIds s ++ [windowId] := by
      rw [taskbarIds_eq, hlab]
      cases hb : hasTaskbarItem windowId s
      · simp [← taskbarIds_eq]
      · simp [← taskbarIds_eq]
    have hmemIds : ∀ a, a ∈ taskbarIds (openWindow windowId s) ↔
        a ∈ taskbarIds s ∨ a = windowId := by
      intro a
      rw [hids]
      cases hb : hasTaskbarItem windowId s
      · simp
      · have := (hasTaskbarItem_iff windowId s hpw).1 hb
        simp only [if_true]
        constructor
        · exact Or.inl
        · rintro (h1 | h1)
          · exact h1
          · rw [h1]; exact this
    refine ⟨?_, ?_, ?_, ?_⟩
    · rw [hwin]
      exact idsUnique_setActiveWindow _ _ (idsUnique_modify _ _ _ (fun _ => rfl) hu)
    · rw [hids]
      cases hb : hasTaskbarItem windowId s
      · have hnot : windowId ∉ taskbarIds s := fun hmem => by
          rw [← hasTaskbarItem_iff windowId s hpw, hb] at hmem
          exact absurd hmem (by decide)
        simp only [Bool.false_eq_true, if_false]
        rw [← List.concat_eq_append]
        exact List.Nodup.concat hnot hn
      · simpa using hn
    · intro i y hy
      rw [hwin, setActiveWindow_windows] at hy
      cases hx1 : (modifyWindow (fun w => { w with display := Display.block, opening := true })
          window s).windows[i]? with
      | none =>
        rw [hx1] at hy
        exact absurd hy (by simp)
      | some x1 =>
        rw [hx1] at hy
        simp only [Option.map_some', Option.some.injEq] at hy
        obtain ⟨x, hx, hc⟩ := getElem?_modify_cases _ _ _ _ _ hx1
        unfold Mirrored
        simp only [hmemIds]
        rcases hc with ⟨hi, hyx⟩ | ⟨hi, hyx⟩
        · subst hi
          rw [hw] at hx
          cases hx
          subst hyx
          subst hy
          refine ⟨fun _ => Or.inr ?_, fun _ => Or.inl ?_⟩
          · simpa [activated] using hwid
          · simp [activated]
        · subst hyx
          subst hy
          have hne : x1.id ≠ windowId := fun e => hi (hu i window x1 w hx hw (e.trans hwid.symm))
          obtain ⟨m1, m2⟩ := hm i x1 hx
          have hni : ¬ window = i := fun e => hi e.symm
          simp only [activated, hni, if_false]
          refine ⟨fun hb => Or.inl (m1 hb), fun hmem => ?_⟩
          rcases hmem with hmem | hmem
          · rcases m2 hmem with hb | ⟨hb, _⟩
            · exact Or.inl hb
            · exact Or.inr ⟨hb, trivial⟩
          · exact absurd hmem hne
    · rw [hwin]
      exact plainIds_setActiveWindow _ _ (plainIds_modify _ _ _ (fun _ => rfl) hp)

theorem taskbarInv_iterate (windowId : String) (n : Nat) (s : Desktop) (h : TaskbarInv s) :
    TaskbarInv (Nat.iterate (openWindow windowId) n s) := by
  induction n generalizing s with
  | zero => exact h
  | succ n ih => exact ih _ (taskbarInv_openWindow _ _ h)

theorem taskbarInv_runTimer (t : Timer) (s : Desktop) (h : TaskbarInv s) :
    TaskbarInv (runTimer t s) := by
  cases t with
  | openWindow window =>
    exact taskbarInv_modifyWindow _ _ _ (fun x => settles_refl x) h
  | closeWindow window => exact taskbarInv_closeWindowTimeout _ _ h
  | minimizeWindow window => exact taskbarInv_minimizeWindowTimeout _ _ h

theorem taskbarInv_applyEvent (e : Event) (s : Desktop) (he : e.lifecycle = true)
    (h : TaskbarInv s) : TaskbarInv (applyEvent e s) := by
  cases e with
  | openWindow windowId => exact taskbarInv_openWindow _ _ h
  | restoreWindow windowId => simp [Event.lifecycle] at he
  | closeWindow window =>
    simp only [applyEvent]; split
    · exact taskbarInv_closeWindow _ _ h
    · exact h
  | minimizeWindow window =>
    simp only [applyEvent]; split
    · exact taskbarInv_minimizeWindow _ _ h
    · exact h
  | setActiveWindow window => simp [Event.lifecycle] at he
  | timeout i =>
    simp only [applyEvent, timeout]
    split
    · exact h
    · exact taskbarInv_runTimer _ _ (taskbarInv_congr s _ rfl rfl h)
  | taskbarItemClick windowId =>
    simp only [applyEvent]; split
    · rename_i hhas
      unfold taskbarItemClick
      split
      · exact h
      · split
        · exact h
        · split
          · exact taskbarInv_restoreWindow _ _ hhas h
          · exact taskbarInv_minimizeWindow _ _ h
    · exact h
  | click t =>
    simp only [applyEvent]; split
    · have h1 : TaskbarInv (controlClick t s).state := by
        unfold controlClick closeWindowCall minimizeWindowCall
        rcases t with ⟨cb, mb, _ | w, tb⟩ <;> cases cb <;> cases mb <;>
          simp [h, taskbarInv_closeWindow, taskbarInv_minimizeWindow]
      unfold documentClick windowClick
      simp only []
      split
      · exact h1
      · split
        · split
          · rename_i window _ w hw hd
            apply taskbarInv_setActiveWindow _ _ _ h1
            intro x hx
            rw [hw] at hx
            cases hx
            simpa using hd
          · exact h1
        · exact h1
    · exact h
  | mousedown t clientX clientY => simp [Event.lifecycle] at he
  | mousemove clientX clientY innerWidth innerHeight =>
    simp only [applyEvent, mousemove]
    split
    · exact taskbarInv_modifyWindow _ _ _ (fun x => settles_refl x) h
    · exact h
  | mouseup => exact taskbarInv_congr s _ rfl rfl h
  | dblclick icon =>
    simp only [applyEvent, iconDblclick]
    split
    · exact h
    · exact taskbarInv_iterate _ _ _ h
  | addDesktopIcon iconData => exact taskbarInv_congr s _ rfl rfl h

theorem taskbarInv_run (es : List Event) (s : Desktop) (hes : ∀ e ∈ es, e.lifecycle = true)
    (h : TaskbarInv s) : TaskbarInv (run es s) := by
  induction es generalizing s with
  | nil => exact h
  | cons e es ih =>
    exact ih _ (fun e' he' => hes e' (List.mem_cons_of_mem _ he'))
      (taskbarInv_applyEvent e s (hes e (List.mem_cons_self _ _)) h)

theorem idsUnique_of_nodup (ws : List Window) (h : (ws.map (fun w => w.id)).Nodup) :
    IdsUnique ws := by
  intro i j x y hx hy hxy
  have hi : i < (ws.map (fun w => w.id)).length := by
    rw [List.length_map]; exact (List.getElem?_eq_some.1 hx).1
  have hj : j < (ws.map (fun w => w.id)).length := by
    rw [List.length_map]; exact (List.getElem?_eq_some.1 hy).1
  have ei : (ws.map (fun w => w.id))[i]? = some x.id := by
    rw [List.getElem?_map, hx]; rfl
  have ej : (ws.map (fun w => w.id))[j]? = some y.id := by
    rw [List.getElem?_map, hy]; rfl
  by_contra hne
  rcases Nat.lt_or_gt_of_ne hne with hlt | hgt
  · exact (List.nodup_iff_getElem?_ne_getElem?.1 h) i j hlt hj (by rw [ei, ej, hxy])
  · exact (List.nodup_iff_getElem?_ne_getElem?.1 h) j i hgt hi (by rw [ei, ej, hxy])

theorem taskbarInv_initial (s : Desktop) (hids : (s.windows.map (fun w => w.id)).Nodup)
    (hplain : ∀ w ∈ s.windows, plainId w.id = true)
    (hclosed : ∀ w ∈ s.windows, w.display ≠ Display.block) (hempty : s.taskbar = []) :
    TaskbarInv s := by
  refine ⟨idsUnique_of_nodup _ hids, by simp [taskbarIds, hempty], ?_,
    fun i x hx => hplain x (List.getElem?_mem hx)⟩
  intro i x hx
  refine ⟨fun hb => absurd hb (hclosed x (List.getElem?_mem hx)), fun hmem => ?_⟩
  simp [taskbarIds, hempty] at hmem

/-! ## Which taskbar items exist -/

@[simp] theorem taskbarIds_modifyWindow (f : Window → Window) (window : Nat) (s : Desktop) :
    taskbarIds (modifyWindow f window s) = taskbarIds s := rfl

theorem taskbarIds_activateLast (p : Window → Bool) (s : Desktop) :
    taskbarIds (activateLast p s) = taskbarIds s := by
  unfold activateLast
  split
  · exact taskbarIds_setActiveWindow _ _
  · rfl

theorem taskbarIds_closeWindow (window : Nat) (s : Desktop) :
    taskbarIds (closeWindow window s) = taskbarIds s := rfl

theorem taskbarIds_minimizeWindow (window : Nat) (s : Desktop) :
    taskbarIds (minimizeWindow window s) = taskbarIds s := rfl

theorem taskbarIds_restoreWindow (windowId : String) (s : Desktop) :
    taskbarIds (restoreWindow windowId s) = taskbarIds s := by
  unfold restoreWindow
  split
  · rfl
  · simp only []
    rw [taskbarIds_updateTaskbarItem, taskbarIds_setActiveWindow]
    rfl

theorem taskbarIds_minimizeWindowTimeout (window : Nat) (s : Desktop) :
    taskbarIds (minimizeWindowTimeout window s) = taskbarIds s := by
  unfold minimizeWindowTimeout
  simp only []
  split
  · rw [taskbarIds_updateTaskbarItem, taskbarIds_activateLast]
    rfl
  · rw [taskbarIds_activateLast]
    rfl

theorem taskbarIds_closeWindowTimeout (window : Nat) (s : Desktop) (w : Window)
    (hw : s.windows[window]? = some w) (hp : plainId w.id = true) :
    taskbarIds (closeWindowTimeout window s) = (taskbarIds s).erase w.id := by
  unfold closeWindowTimeout
  simp only []
  rw [taskbarIds_activateLast]
  simp only [modifyWindow_windows, List.getElem?_modify_eq, hw, Option.map_eq_map,
    Option.map_some']
  rw [taskbarIds_removeFromTaskbar _ _ hp]
  rfl

theorem mem_taskbarIds_removeFromTaskbar (a b : String) (s : Desktop) (hab : a ≠ b)
    (h : a ∈ taskbarIds s) : a ∈ taskbarIds (removeFromTaskbar b s) := by
  unfold taskbarIds removeFromTaskbar at *
  simp only [List.mem_map] at h ⊢
  obtain ⟨t, ht, hta⟩ := h
  refine ⟨t, ?_, hta⟩
  rw [List.mem_eraseP_of_neg]
  · exact ht
  · unfold selects
    simp only [Bool.and_eq_true, beq_iff_eq, not_and]
    intro _ e
    exact hab (hta ▸ e)

theorem mem_taskbarIds_closeWindowTimeout (window : Nat) (s : Desktop) (a : String)
    (ha : a ∈ taskbarIds s) (hne : ∀ w, s.windows[window]? = some w → a ≠ w.id) :
    a ∈ taskbarIds (closeWindowTimeout window s) := by
  unfold closeWindowTimeout
  simp only []
  rw [taskbarIds_activateLast]
  cases hw : s.windows[window]? with
  | none =>
    simp only [modifyWindow_windows, List.getElem?_modify_eq, hw, Option.map_eq_map,
      Option.map_none']
    exact ha
  | some w =>
    simp only [modifyWindow_windows, List.getElem?_modify_eq, hw, Option.map_eq_map,
      Option.map_some']
    exact mem_taskbarIds_removeFromTaskbar a _ _ (hne w hw) ha

theorem setActiveWindow_display (window : Nat) (s : Desktop) (i : Nat) (x : Window)
    (hx : s.windows[i]? = some x) :
    ∃ y, (setActiveWindow window s).windows[i]? = some y ∧ y.id = x.id ∧
      y.display = x.display := by
  rw [setActiveWindow_windows, hx]
  refine ⟨_, rfl, ?_, ?_⟩ <;>
  · unfold activated
    split <;> rfl

theorem activateLast_display (p : Window → Bool) (s : Desktop) (i : Nat) (x : Window)
    (hx : s.windows[i]? = some x) :
    ∃ y, (activateLast p s).windows[i]? = some y ∧ y.id = x.id ∧ y.display = x.display := by
  unfold activateLast
  split
  · exact setActiveWindow_display _ _ _ _ hx
  · exact ⟨x, hx, rfl, rfl⟩

theorem closeWindowTimeout_display (window : Nat) (s : Desktop) (w : Window)
    (hw : s.windows[window]? = some w) :
    ∃ y, (closeWindowTimeout window s).windows[window]? = some y ∧
      y.display = Display.none := by
  unfold closeWindowTimeout
  simp only []
  simp only [modifyWindow_windows, List.getElem?_modify_eq, hw, Option.map_eq_map,
    Option.map_some']
  obtain ⟨y, hy, _, hd⟩ := activateLast_display styleBlock
    (removeFromTaskbar w.id (modifyWindow
      (fun w => { w with display := Display.none, closing := false, active := false,
                         inactive := false }) window s)) window
    { w with display := Display.none, closing := false, active := false, inactive := false }
    (by simp [hw])
  exact ⟨y, hy, hd⟩

theorem minimizeWindowTimeout_display (window : Nat) (s : Desktop) (w : Window)
    (hw : s.windows[window]? = some w) :
    ∃ y, (minimizeWindowTimeout window s).windows[window]? = some y ∧
      y.display = Display.none := by
  unfold minimizeWindowTimeout
  simp only []
  obtain ⟨y, hy, _, hd⟩ := activateLast_display styleBlockNotInactive
    (modifyWindow
      (fun w => { w with display := Display.none, minimizing := false, active := false,
                         inactive := true }) window s) window
    { w with display := Display.none, minimizing := false, active := false, inactive := true }
    (by simp [hw])
  split
  · exact ⟨y, hy, hd⟩
  · exact ⟨y, hy, hd⟩

theorem subset_taskbarIds_closeWindowTimeout (window : Nat) (s : Desktop) (a : String)
    (ha : a ∈ taskbarIds (closeWindowTimeout window s)) : a ∈ taskbarIds s := by
  unfold closeWindowTimeout at ha
  simp only [] at ha
  rw [taskbarIds_activateLast] at ha
  cases hw : s.windows[window]? with
  | none =>
    simp only [modifyWindow_windows, List.getElem?_modify_eq, hw, Option.map_eq_map,
      Option.map_none'] at ha
    exact ha
  | some w =>
    simp only [modifyWindow_windows, List.getElem?_modify_eq, hw, Option.map_eq_map,
      Option.map_some'] at ha
    unfold taskbarIds removeFromTaskbar at ha
    exact (List.Sublist.map _ (List.eraseP_sublist _)).subset ha

theorem openWindow_taskbarIds (s : Desktop) (windowId : String) (window : Nat) (w : Window)
    (hid : getElementById windowId s = some window) (hw : s.windows[window]? = some w) :
    taskbarIds (openWindow windowId s) =
      if hasTaskbarItem windowId s then taskbarIds s else taskbarIds s ++ [windowId] := by
  rw [taskbarIds_eq, openWindow_taskbarLabels s windowId window w hid hw]
  cases hb : hasTaskbarItem windowId s
  · simp [← taskbarIds_eq]
  · simp [← taskbarIds_eq]

theorem openWindow_entries (windowId : String) (s : Desktop) :
    (∀ a, a ∈ taskbarIds s → a ∈ taskbarIds (openWindow windowId s)) ∧
    (∀ a, a ∉ taskbarIds s → a ∈ taskbarIds (openWindow windowId s) →
      Displayed a (openWindow windowId s)) := by
  cases hid : getElementById windowId s with
  | none =>
    have e : openWindow windowId s = s := by
      unfold openWindow
      rw [hid]
    rw [e]
    exact ⟨fun _ h => h, fun _ h1 h2 => absurd h2 h1⟩
  | some window =>
    obtain ⟨w, hw, hwid⟩ := getElementById_some windowId s window hid
    have hids := openWindow_taskbarIds s windowId window w hid hw
    constructor
    · intro a ha
      rw [hids]
      split
      · exact ha
      · exact List.mem_append_left _ ha
    · intro a ha1 ha2
      rw [hids] at ha2
      split at ha2
      · exact absurd ha2 ha1
      · rw [List.mem_append] at ha2
        rcases ha2 with h | h
        · exact absurd h ha1
        · simp only [List.mem_singleton] at h
          refine ⟨window, ?_⟩
          rw [openWindow_windows s windowId window hid, setActiveWindow_windows]
          simp only [modifyWindow_windows, List.getElem?_modify_eq, hw, Option.map_eq_map,
            Option.map_some']
          refine ⟨_, rfl, ?_, ?_⟩
          · simp [activated, hwid, h]
          · simp [activated]

theorem openWindow_keeps_displayed (windowId a : String) (s : Desktop) (h : Displayed a s) :
    Displayed a (openWindow windowId s) := by
  cases hid : getElementById windowId s with
  | none =>
    have e : openWindow windowId s = s := by
      unfold openWindow
      rw [hid]
    rw [e]
    exact h
  | some window =>
    obtain ⟨i, x, hx, hxa, hxd⟩ := h
    have h1 : ∃ x1, (modifyWindow (fun w => { w with display := Display.block, opening := true })
        window s).windows[i]? = some x1 ∧ x1.id = a ∧ x1.display = Display.block := by
      rw [modifyWindow_windows, List.getElem?_modify, hx]
      simp only [Option.map_eq_map, Option.map_some']
      refine ⟨_, rfl, ?_⟩
      split
      · exact ⟨hxa, rfl⟩
      · exact ⟨hxa, hxd⟩
    obtain ⟨x1, hx1, hx1a, hx1d⟩ := h1
    obtain ⟨y, hy, hyid, hyd⟩ := setActiveWindow_display window _ i x1 hx1
    refine ⟨i, y, ?_, hyid.trans hx1a, hyd.trans hx1d⟩
    rw [openWindow_windows s windowId window hid]
    exact hy

theorem iterate_entries (windowId : String) (n : Nat) (s : Desktop) :
    (∀ a, a ∈ taskbarIds s → a ∈ taskbarIds (Nat.iterate (openWindow windowId) n s)) ∧
    (∀ a, a ∉ taskbarIds s → a ∈ taskbarIds (Nat.iterate (openWindow windowId) n s) →
      Displayed a (Nat.iterate (openWindow windowId) n s)) := by
  induction n with
  | zero => exact ⟨fun _ h => h, fun _ h1 h2 => absurd h2 h1⟩
  | succ n ih =>
    rw [Function.iterate_succ_apply']
    obtain ⟨ih1, ih2⟩ := ih
    obtain ⟨o1, o2⟩ := openWindow_entries windowId (Nat.iterate (openWindow windowId) n s)
    constructor
    · intro a ha
      exact o1 a (ih1 a ha)
    · intro a ha1 ha2
      by_cases hmid : a ∈ taskbarIds (Nat.iterate (openWindow windowId) n s)
      · exact openWindow_keeps_displayed _ _ _ (ih2 a ha1 hmid)
      · exact o2 a hmid ha2

theorem entries_of_eq (s s' : Desktop) (h : taskbarIds s' = taskbarIds s) :
    (∀ a, a ∈ taskbarIds s → a ∈ taskbarIds s') ∧
    (∀ a, a ∉ taskbarIds s → a ∈ taskbarIds s' → Displayed a s') := by
  rw [h]
  exact ⟨fun _ h => h, fun _ h1 h2 => absurd h2 h1⟩

theorem taskbarIds_applyEvent_of_not_open (e : Event) (s : Desktop)
    (ho : ∀ windowId, e ≠ Event.openWindow windowId) (hd : ∀ icon, e ≠ Event.dblclick icon)
    (ht : ∀ i, e ≠ Event.timeout i) : taskbarIds (applyEvent e s) = taskbarIds s := by
  cases e with
  | openWindow windowId => exact absurd rfl (ho windowId)
  | restoreWindow windowId => exact taskbarIds_restoreWindow _ _
  | closeWindow window =>
    simp only [applyEvent]; split <;> rfl
  | minimizeWindow window =>
    simp only [applyEvent]; split <;> rfl
  | setActiveWindow window =>
    simp only [applyEvent]; split
    · exact taskbarIds_setActiveWindow _ _
    · rfl
  | timeout i => exact absurd rfl (ht i)
  | taskbarItemClick windowId =>
    simp only [applyEvent]; split
    · unfold taskbarItemClick
      split
      · rfl
      · split
        · rfl
        · split
          · exact taskbarIds_restoreWindow _ _
          · rfl
    · rfl
  | click t =>
    simp only [applyEvent]; split
    · have h1 : taskbarIds (controlClick t s).state = taskbarIds s := by
        unfold controlClick closeWindowCall minimizeWindowCall
        rcases t with ⟨cb, mb, _ | w, tb⟩ <;> cases cb <;> cases mb <;> rfl
      unfold documentClick windowClick
      simp only []
      split
      · exact h1
      · split
        · split
          · rw [taskbarIds_setActiveWindow]; exact h1
          · exact h1
        · exact h1
    · rfl
  | mousedown t clientX clientY =>
    simp only [applyEvent]; split
    · unfold mousedown
      split
      · rfl
      · rfl
      · split
        · rfl
        · rw [taskbarIds_setActiveWindow]; rfl
    · rfl
  | mousemove clientX clientY innerWidth innerHeight =>
    simp only [applyEvent, mousemove]
    split <;> rfl
  | mouseup => rfl
  | dblclick icon => exact absurd rfl (hd icon)
  | addDesktopIcon iconData => rfl

theorem applyEvent_entries (e : Event) (s : Desktop) :
    (∀ a, a ∈ taskbarIds s → a ∈ taskbarIds (applyEvent e s) ∨
      ∃ (i window : Nat) (w : Window), e = Event.timeout i ∧
        s.timers[i]? = some (Timer.closeWindow window) ∧ s.windows[window]? = some w ∧
        w.id = a) ∧
    (∀ a, a ∉ taskbarIds s → a ∈ taskbarIds (applyEvent e s) →
      Displayed a (applyEvent e s)) := by
  by_cases ho : ∃ windowId, e = Event.openWindow windowId
  · obtain ⟨windowId, rfl⟩ := ho
    obtain ⟨o1, o2⟩ := openWindow_entries windowId s
    exact ⟨fun a ha => Or.inl (o1 a ha), o2⟩
  by_cases hd : ∃ icon, e = Event.dblclick icon
  · obtain ⟨icon, rfl⟩ := hd
    simp only [applyEvent, iconDblclick]
    split
    · exact ⟨fun a ha => Or.inl ha, fun _ h1 h2 => absurd h2 h1⟩
    · rename_i ic _
      obtain ⟨o1, o2⟩ := iterate_entries ic.window ic.dblclick s
      exact ⟨fun a ha => Or.inl (o1 a ha), o2⟩
  by_cases ht : ∃ i, e = Event.timeout i
  · obtain ⟨i, rfl⟩ := ht
    simp only [applyEvent, timeout]
    cases hti : s.timers[i]? with
    | none => exact ⟨fun a ha => Or.inl ha, fun _ h1 h2 => absurd h2 h1⟩
    | some t =>
      cases t with
      | openWindow window =>
        exact ⟨fun a ha => Or.inl ha, fun _ h1 h2 => absurd h2 h1⟩
      | minimizeWindow window =>
        have e1 := taskbarIds_minimizeWindowTimeout window
          { s with timers := s.timers.eraseIdx i }
        obtain ⟨o1, o2⟩ := entries_of_eq { s with timers := s.timers.eraseIdx i } _ e1
        exact ⟨fun a ha => Or.inl (o1 a ha), o2⟩
      | closeWindow window =>
        constructor
        · intro a ha
          by_cases hw : ∃ w, s.windows[window]? = some w ∧ w.id = a
          · obtain ⟨w, hw1, hw2⟩ := hw
            exact Or.inr ⟨i, window, w, rfl, hti, hw1, hw2⟩
          · left
            apply mem_taskbarIds_closeWindowTimeout window
              { s with timers := s.timers.eraseIdx i } a ha
            intro w hw1 e
            exact hw ⟨w, hw1, e.symm⟩
        · intro a ha1 ha2
          exact absurd (subset_taskbarIds_closeWindowTimeout window
            { s with timers := s.timers.eraseIdx i } a ha2) ha1
  · have e1 := taskbarIds_applyEvent_of_not_open e s
      (fun w h => ho ⟨w, h⟩) (fun w h => hd ⟨w, h⟩) (fun w h => ht ⟨w, h⟩)
    obtain ⟨o1, o2⟩ := entries_of_eq s _ e1
    exact ⟨fun a ha => Or.inl (o1 a ha), o2⟩

/-! ## Desktop icons -/

theorem iconDblclick_new_icon (iconData : IconData) (s : Desktop) :
    iconDblclick s.icons.length (addDesktopIcon iconData s) =
      openWindow iconData.windowId (addDesktopIcon iconData s) := by
  unfold iconDblclick addDesktopIcon initializeDesktopIcons
  simp

/-! ## Properties of the window manager -/

/-- C1: starting from a state in which no window carries the class `active`, after any
sequence of events (calls of `openWindow`, `restoreWindow`, `closeWindow`,
`minimizeWindow`, `setActiveWindow`, timers firing in any order, and user input) at most
one window carries the class `active`. -/
theorem at_most_one_active (s0 : Desktop) (es : List Event)
    (h0 : ∀ w ∈ s0.windows, w.active = false) :
    ∀ (i j : Nat) (x y : Window), (run es s0).windows[i]? = some x →
      (run es s0).windows[j]? = some y → x.active = true → y.active = true → i = j := by
  apply atMostOneActive_run
  intro i j x y hx _ hxa _
  have := h0 x (List.getElem?_mem hx)
  rw [this] at hxa
  exact absurd hxa (by decide)

/-- Witness of C1 on a freshly loaded page: three windows are opened, one is closed and
its timer fires. -/
theorem at_most_one_active_witness :
    (∀ w ∈ page0.windows, w.active = false) ∧
    ∀ (i j : Nat) (x y : Window),
      (run [Event.openWindow "contact", Event.openWindow "projects", Event.openWindow "about",
            Event.closeWindow 0, Event.timeout 3] page0).windows[i]? = some x →
      (run [Event.openWindow "contact", Event.openWindow "projects", Event.openWindow "about",
            Event.closeWindow 0, Event.timeout 3] page0).windows[j]? = some y →
      x.active = true → y.active = true → i = j :=
  ⟨by decide, at_most_one_active page0 _ (by decide)⟩

/-- C8, as stated, fails: every `zIndex` of `staleStack` is at most the counter, and after
`minimizeWindow` has been called on the upper window (its timer still pending) the active
window is not above the other displayed window. -/
theorem zIndex_claim_counterexample :
    (∀ w ∈ staleStack.windows, w.zIndex ≤ staleStack.windowZIndex) ∧
    ¬ ActiveOnTop (run [Event.minimizeWindow 1] staleStack) := by
  refine ⟨by decide, fun h => ?_⟩
  have := h 0 1 _ _ rfl rfl rfl (by decide) rfl
  exact absurd this (by decide)

/-- C8, amended: starting from a state in which every `zIndex` is at most the counter
`windowZIndex` and an active window, if any, is already strictly above every other
displayed window, after any events `es1` and then `es2`: a call of `setActiveWindow`
assigns a `zIndex` strictly greater than every `zIndex` present at the earlier time, an
active window has a `zIndex` strictly greater than that of every other displayed window,
and every `zIndex` is at most the counter. -/
theorem zIndex_strictly_increasing (s0 : Desktop) (es1 es2 : List Event)
    (hb : ∀ w ∈ s0.windows, w.zIndex ≤ s0.windowZIndex) (ht : ActiveOnTop s0) :
    (∀ (window i : Nat) (x y : Window), (run es1 s0).windows[i]? = some x →
      (setActiveWindow window (run es2 (run es1 s0))).windows[window]? = some y →
      x.zIndex < y.zIndex) ∧
    ActiveOnTop (run es2 (run es1 s0)) ∧
    (∀ w ∈ (run es2 (run es1 s0)).windows,
      w.zIndex ≤ (run es2 (run es1 s0)).windowZIndex) := by
  have h0 : ZInv s0 := ⟨fun i x hx => hb x (List.getElem?_mem hx), ht⟩
  have h1 : ZInv (run es1 s0) := (zStep_run es1 s0).2 h0
  have h2 := zStep_run es2 (run es1 s0)
  have h3 : ZInv (run es2 (run es1 s0)) := h2.2 h1
  refine ⟨?_, h3.2, ?_⟩
  · intro window i x y hx hy
    rw [setActiveWindow_windows] at hy
    cases hw : (run es2 (run es1 s0)).windows[window]? with
    | none => simp [hw] at hy
    | some x2 =>
      simp only [hw, Option.map_some', Option.some.injEq] at hy
      subst hy
      have := h1.1 i x hx
      have := h2.1
      simp [activated]
      omega
  · intro w hw
    obtain ⟨n, hn⟩ := List.getElem?_of_mem hw
    exact h3.1 n w hn

/-- Witness of the amended C8 on a freshly loaded page. -/
theorem zIndex_strictly_increasing_witness :
    (∀ w ∈ page0.windows, w.zIndex ≤ page0.windowZIndex) ∧ ActiveOnTop page0 ∧
    ((∀ (window i : Nat) (x y : Window),
      (run [Event.openWindow "about"] page0).windows[i]? = some x →
      (setActiveWindow window
        (run [Event.openWindow "projects"]
          (run [Event.openWindow "about"] page0))).windows[window]? = some y →
      x.zIndex < y.zIndex) ∧
    ActiveOnTop (run [Event.openWindow "projects"] (run [Event.openWindow "about"] page0)) ∧
    (∀ w ∈ (run [Event.openWindow "projects"] (run [Event.openWindow "about"] page0)).windows,
      w.zIndex ≤
        (run [Event.openWindow "projects"] (run [Event.openWindow "about"] page0)).windowZIndex)) :=
  ⟨by decide, activeOnTop_of_no_active page0 (by decide),
    zIndex_strictly_increasing page0 [Event.openWindow "about"] [Event.openWindow "projects"]
      (by decide) (activeOnTop_of_no_active page0 (by decide))⟩

/-- C2, as stated, fails: with the three windows displayed, `about` (z 14) on top of
`projects` (z 12) on top of `contact` (z 11), closing `about` activates `contact`, not
`projects`. -/
theorem close_claim_counterexample :
    (run (openThree ++ [Event.click (closeButtonOf 0)]) page0).windows.map
        (fun w => (w.id, w.display, w.zIndex)) =
      [("about", Display.block, 14), ("projects", Display.block, 12),
       ("contact", Display.block, 11)] ∧
    (run (openThree ++ [Event.click (closeButtonOf 0)]) page0).activeWindow = some 0 ∧
    (run (openThree ++ [Event.click (closeButtonOf 0), Event.timeout 0]) page0).activeWindow
      = some 2 := by
  decide

/-- C2, amended: when the callback of `closeWindow(window)` runs in a state in which `v` is
the last window in document order, other than `window`, that is displayed, then afterwards
`activeWindow` is `v` and `v` carries the class `active`. -/
theorem close_activates_last_displayed (s : Desktop) (window v : Nat) (x : Window)
    (hv : v ≠ window) (hx : s.windows[v]? = some x) (hd : x.display = Display.block)
    (hlast : ∀ (u : Nat) (y : Window), u ≠ window → s.windows[u]? = some y →
      y.display = Display.block → u ≤ v) :
    (closeWindowTimeout window s).activeWindow = some v ∧
    ∃ y, (closeWindowTimeout window s).windows[v]? = some y ∧ y.active = true := by
  have key : ∀ s2 : Desktop, s2.windows = s.windows.modify
      (fun w => { w with display := Display.none, closing := false, active := false,
                         inactive := false }) window →
      (activateLast styleBlock s2).activeWindow = some v ∧
      ∃ y, (activateLast styleBlock s2).windows[v]? = some y ∧ y.active = true := by
    intro s2 hs2
    have hlen : v < s2.windows.length := by
      rw [hs2, List.length_modify]
      exact (List.getElem?_eq_some.1 hx).1
    have hv2 : s2.windows[v]? = some x := by
      rw [hs2, List.getElem?_modify_ne _ _ (Ne.symm hv)]
      exact hx
    have hq : (querySelectorAll styleBlock s2).getLast? = some v := by
      unfold querySelectorAll
      apply getLast?_filter_range _ _ _ hlen
      · simp [hv2, styleBlock, hd]
      · intro u _ hu
        by_cases huw : u = window
        · subst huw
          rw [hs2, List.getElem?_modify_eq] at hu
          cases hy : s.windows[u]? <;> simp [hy, styleBlock] at hu
        · rw [hs2, List.getElem?_modify_ne _ _ (Ne.symm huw)] at hu
          cases hy : s.windows[u]? with
          | none => simp [hy] at hu
          | some y =>
            simp [hy, styleBlock] at hu
            exact hlast u y huw hy hu
    unfold activateLast
    rw [hq]
    refine ⟨by simp, ?_⟩
    rw [setActiveWindow_windows, hv2]
    exact ⟨_, rfl, by simp [activated]⟩
  unfold closeWindowTimeout
  simp only []
  split
  · exact key _ rfl
  · exact key _ rfl

/-- Witness of the amended C2: in the session of the counterexample, `contact` is the last
displayed window other than `about`. -/
theorem close_activates_last_displayed_witness :
    (2 ≠ 0 ∧
      (run (openThree ++ [Event.click (closeButtonOf 0)]) page0).windows[2]? =
        some (mkWindow "contact" "Contact" Display.block false true 11)) ∧
    ((closeWindowTimeout 0
        (run (openThree ++ [Event.click (closeButtonOf 0)]) page0)).activeWindow = some 2 ∧
      ∃ y, (closeWindowTimeout 0
        (run (openThree ++ [Event.click (closeButtonOf 0)]) page0)).windows[2]? = some y ∧
        y.active = true) :=
  ⟨⟨by decide, by decide⟩,
    close_activates_last_displayed
      (run (openThree ++ [Event.click (closeButtonOf 0)]) page0) 0 2
      (mkWindow "contact" "Contact" Display.block false true 11)
      (by decide) (by decide) rfl
      (fun u y _ hy _ => by
        have h := (List.getElem?_eq_some.1 hy).1
        have h3 :
            (run (openThree ++ [Event.click (closeButtonOf 0)]) page0).windows.length = 3 := by
          decide
        omega)⟩

/-- C3 on the failing input: `about` and `projects` are displayed, `projects` is active;
once `projects` has been minimized `about` is still displayed, but `activeWindow` is
`null` and no window carries the class `active`. -/
theorem minimize_leaves_no_active_window :
    (run (openTwo ++ [Event.click (minimizeButtonOf 1), Event.timeout 0]) page0).windows.map
        (fun w => (w.id, w.display, w.active)) =
      [("about", Display.block, false), ("projects", Display.none, false),
       ("contact", Display.unset, false)] ∧
    (run (openTwo ++ [Event.click (minimizeButtonOf 1), Event.timeout 0]) page0).activeWindow
      = Option.none := by
  decide

/-- C5: while a window is dragged, the `mousemove` handler writes on it
`left = max(0, min(initialLeft + deltaX, innerWidth - offsetWidth))` and
`top = max(0, min(initialTop + deltaY, innerHeight - offsetHeight - 40))`, for all integer
inputs; for a viewport of 1024 by 768, a window of 300 by 200 and the candidate
position (-50, 900) that is (0, 528). -/
theorem drag_clamp (s : Desktop) (element : Nat) (w : Window)
    (clientX clientY innerWidth innerHeight : Int)
    (hd : s.dragData.isDragging = true) (he : s.dragData.element = some element)
    (hw : s.windows[element]? = some w) :
    (∃ w', (mousemove clientX clientY innerWidth innerHeight s).windows[element]? = some w' ∧
      w'.left = some (max 0 (min (s.dragData.initialLeft + (clientX - s.dragData.startX))
        (innerWidth - w.offsetWidth))) ∧
      w'.top = some (max 0 (min (s.dragData.initialTop + (clientY - s.dragData.startY))
        (innerHeight - w.offsetHeight - 40)))) ∧
    (mousemove 50 1000 1024 768 dragging).windows.map (fun w => (w.left, w.top)) =
      [(some 0, some 528)] := by
  refine ⟨?_, by decide⟩
  unfold mousemove
  rw [hd, he]
  simp only [modifyWindow_windows, List.getElem?_modify_eq, hw]
  exact ⟨_, rfl, rfl, rfl⟩

/-- Witness of C5: the drag of the example page. -/
theorem drag_clamp_witness :
    (dragging.dragData.isDragging = true ∧ dragging.dragData.element = some 0 ∧
      dragging.windows[0]? = some (mkWindow "about" "About Me" Display.block true false 11)) ∧
    ((∃ w', (mousemove 50 1000 1024 768 dragging).windows[0]? = some w' ∧
      w'.left = some (max 0 (min (dragging.dragData.initialLeft +
        (50 - dragging.dragData.startX))
        (1024 - (mkWindow "about" "About Me" Display.block true false 11).offsetWidth))) ∧
      w'.top = some (max 0 (min (dragging.dragData.initialTop +
        (1000 - dragging.dragData.startY))
        (768 - (mkWindow "about" "About Me" Display.block true false 11).offsetHeight - 40)))) ∧
    (mousemove 50 1000 1024 768 dragging).windows.map (fun w => (w.left, w.top)) =
      [(some 0, some 528)]) :=
  ⟨⟨rfl, rfl, rfl⟩, drag_clamp dragging 0 _ 50 1000 1024 768 rfl rfl rfl⟩

/-- C6, as stated, fails: without a target element `setActiveWindow` raises a `TypeError`
after it has changed the classes of the windows, and `closeWindow`, `minimizeWindow`, the
close button handler and the taskbar item handler raise a `TypeError`. -/
theorem missing_target_counterexample :
    (setActiveWindowCall Option.none staleStack).threw = true ∧
    (setActiveWindowCall Option.none staleStack).state ≠ staleStack ∧
    (closeWindowCall Option.none staleStack).threw = true ∧
    (minimizeWindowCall Option.none staleStack).threw = true ∧
    (documentClick strayCloseButton staleStack).threw = true ∧
    getElementById "ghost" staleStack = Option.none ∧
    (taskbarItemClick "ghost" staleStack).threw = true := by
  decide

/-- C6, amended: when `windowId` is the id of no element, `openWindow(windowId)` and
`restoreWindow(windowId)` leave the whole state unchanged; when the target of a pointer
event lies in no window, the window click handler and the `mousedown` handler leave the
whole state unchanged, and a click on such a target that is no control button raises no
exception. -/
theorem missing_target_noop (s : Desktop) (windowId : String) (t : Target)
    (clientX clientY : Int)
    (hid : getElementById windowId s = Option.none) (hw : t.window = Option.none)
    (htb : t.titleBar = Option.none ∨ t.titleBar = some Option.none) :
    openWindow windowId s = s ∧ restoreWindow windowId s = s ∧ windowClick t s = s ∧
    mousedown t clientX clientY s = s ∧
    (t.closeBtn = false → t.minimizeBtn = false →
      documentClick t s = { state := s, threw := false }) := by
  refine ⟨?_, ?_, ?_, ?_, ?_⟩
  · unfold openWindow; rw [hid]
  · unfold restoreWindow; rw [hid]
  · unfold windowClick; rw [hw]
  · unfold mousedown
    rcases htb with h | h <;> rw [h]
  · intro hc hm
    unfold documentClick controlClick windowClick
    simp [hc, hm, hw]

/-- Witness of the amended C6: the id `ghost` and a click on the desktop background. -/
theorem missing_target_noop_witness :
    (getElementById "ghost" staleStack = Option.none ∧
      desktopBackground.window = Option.none ∧
      (desktopBackground.titleBar = Option.none ∨
        desktopBackground.titleBar = some Option.none)) ∧
    (openWindow "ghost" staleStack = staleStack ∧
      restoreWindow "ghost" staleStack = staleStack ∧
      windowClick desktopBackground staleStack = staleStack ∧
      mousedown desktopBackground 5 5 staleStack = staleStack ∧
      (desktopBackground.closeBtn = false → desktopBackground.minimizeBtn = false →
        documentClick desktopBackground staleStack = { state := staleStack, threw := false })) :=
  ⟨⟨by decide, rfl, Or.inl rfl⟩,
    missing_target_noop staleStack "ghost" desktopBackground 5 5 (by decide) rfl (Or.inl rfl)⟩

/-- C9, as stated, fails: `about` is displayed but not active (`projects` is); a click on
its taskbar item calls `restoreWindow`, which activates it, and does not minimize it. -/
theorem taskbar_click_counterexample :
    (run openTwo page0).windows.map (fun w => (w.id, w.display, w.active, w.inactive)) =
      [("about", Display.block, false, true), ("projects", Display.block, true, false),
       ("contact", Display.unset, false, true)] ∧
    (taskbarItemClick "about" (run openTwo page0)).state =
      restoreWindow "about" (run openTwo page0) ∧
    (taskbarItemClick "about" (run openTwo page0)).state ≠
      minimizeWindow 0 (run openTwo page0) ∧
    (taskbarItemClick "about" (run openTwo page0)).state.timers = [] ∧
    (taskbarItemClick "about" (run openTwo page0)).state.activeWindow = some 0 := by
  decide

/-- C9, amended: a click on the taskbar item of an existing window calls `restoreWindow`
when the window's inline display is `none` or the window carries the class `inactive`
(a displayed window that is not the active one included), and calls `minimizeWindow` in
every other case. -/
theorem taskbar_click_toggles (s : Desktop) (windowId : String) (window : Nat) (w : Window)
    (hid : getElementById windowId s = some window) (hw : s.windows[window]? = some w) :
    (w.display = Display.none ∨ w.inactive = true →
      taskbarItemClick windowId s = { state := restoreWindow windowId s, threw := false }) ∧
    (w.display ≠ Display.none → w.inactive = false →
      taskbarItemClick windowId s = { state := minimizeWindow window s, threw := false }) := by
  unfold taskbarItemClick
  rw [hid]
  simp only [hw]
  constructor
  · intro h
    rcases h with h | h <;> simp [h]
  · intro h1 h2
    simp [h1, h2]

/-- Witness of the amended C9: the taskbar item of `about` in the counterexample. -/
theorem taskbar_click_toggles_witness :
    (getElementById "about" (run openTwo page0) = some 0 ∧
      (run openTwo page0).windows[0]? =
        some (mkWindow "about" "About Me" Display.block false true 11)) ∧
    ((Display.block = Display.none ∨ true = true →
      taskbarItemClick "about" (run openTwo page0) =
        { state := restoreWindow "about" (run openTwo page0), threw := false }) ∧
    (Display.block ≠ Display.none → true = false →
      taskbarItemClick "about" (run openTwo page0) =
        { state := minimizeWindow 0 (run openTwo page0), threw := false })) :=
  ⟨⟨by decide, by decide⟩,
    taskbar_click_toggles (run openTwo page0) "about" 0
      (mkWindow "about" "About Me" Display.block false true 11) (by decide) (by decide)⟩

/-- C10 on the failing input: after `addDesktopIcon` on a page with one statically
declared icon for `about`, a double click on the new icon runs `openWindow` once
(counter 11) and a double click on the static icon runs it twice (counter 12, and two
timers pending). -/
theorem icon_dblclick_diverges :
    (addDesktopIcon aboutIcon pageWithIcon).icons =
      [{ window := "about", dblclick := 2 }, { window := "about", dblclick := 1 }] ∧
    (iconDblclick 1 (addDesktopIcon aboutIcon pageWithIcon)).windowZIndex = 11 ∧
    (iconDblclick 0 (addDesktopIcon aboutIcon pageWithIcon)).windowZIndex = 12 ∧
    (iconDblclick 1 (addDesktopIcon aboutIcon pageWithIcon)).timers = [Timer.openWindow 0] ∧
    (iconDblclick 0 (addDesktopIcon aboutIcon pageWithIcon)).timers =
      [Timer.openWindow 0, Timer.openWindow 0] ∧
    iconDblclick 0 pageWithIcon = openWindow "about" pageWithIcon := by
  decide

/-- C4, as stated, fails. The page `staleLabel` has one taskbar item per window id, the
window `about` exists and its title bar reads "About Me", and after `openWindow("about")`
the only taskbar item of `about` is still labelled "Old title". And for the id
`escapedId`, which the selector of line 240 does not read as itself, the item made by a
first `openWindow` is not found by the second, which appends a second item. -/
theorem open_label_counterexample :
    (taskbarIds staleLabel).Nodup ∧ getElementById "about" staleLabel = some 0 ∧
    (openWindow "about" staleLabel).windows.map (fun w => (w.id, w.title, w.display)) =
      [("about", "About Me", Display.block)] ∧
    taskbarLabels (openWindow "about" staleLabel) = [("about", "Old title")] ∧
    (taskbarIds (openWindow escapedId escapedPage)).Nodup ∧
    getElementById escapedId (openWindow escapedId escapedPage) = some 0 ∧
    taskbarIds (openWindow escapedId (openWindow escapedId escapedPage)) =
      [escapedId, escapedId] := by
  decide

/-- C4, amended: in a state with at most one taskbar item per window id, for a plain id
(one that the selector built from it reads as itself) of an existing window, after
`openWindow(id)` the window is displayed, carries the class `active` and is
`activeWindow`, and the taskbar holds exactly one item for the id: when there was none, a
new item labelled with the window's title bar text is appended; when there was one, no
item is added and every item keeps its label. -/
theorem open_shows_activates_registers (s : Desktop) (windowId : String) (window : Nat)
    (w : Window) (hone : (taskbarIds s).Nodup) (hplain : plainId windowId = true)
    (hid : getElementById windowId s = some window) (hw : s.windows[window]? = some w) :
    (∃ w', (openWindow windowId s).windows[window]? = some w' ∧
      w'.display = Display.block ∧ w'.active = true) ∧
    (openWindow windowId s).activeWindow = some window ∧
    (taskbarIds (openWindow windowId s)).count windowId = 1 ∧
    (hasTaskbarItem windowId s = false →
      taskbarLabels (openWindow windowId s) = taskbarLabels s ++ [(windowId, w.title)]) ∧
    (hasTaskbarItem windowId s = true →
      taskbarLabels (openWindow windowId s) = taskbarLabels s) := by
  have hl := openWindow_taskbarLabels s windowId window w hid hw
  refine ⟨?_, openWindow_activeWindow s windowId window hid, ?_, ?_, ?_⟩
  · rw [openWindow_windows s windowId window hid, setActiveWindow_windows]
    simp [hw, activated]
  · rw [taskbarIds_eq, hl]
    cases hb : hasTaskbarItem windowId s
    · have hn : windowId ∉ taskbarIds s := fun h => by
        rw [← hasTaskbarItem_iff windowId s hplain, hb] at h
        exact absurd h (by decide)
      simp only [Bool.false_eq_true, if_false, List.map_append, List.map_cons, List.map_nil,
        List.count_append, ← taskbarIds_eq]
      rw [List.count_eq_zero_of_not_mem hn]
      simp
    · simp only [if_true, ← taskbarIds_eq]
      exact List.count_eq_one_of_mem hone ((hasTaskbarItem_iff windowId s hplain).1 hb)
  · intro hb
    rw [hl, hb]
    simp
  · intro hb
    rw [hl, hb]
    simp

/-- Witness of the amended C4, with and without an item already in the taskbar: `about`
is opened on the page `staleLabel`, where its item exists, and on a freshly loaded page,
where it does not. -/
theorem open_shows_activates_registers_witness :
    (((taskbarIds staleLabel).Nodup ∧ plainId "about" = true ∧
        getElementById "about" staleLabel = some 0 ∧
        staleLabel.windows[0]? = some (mkWindow "about" "About Me" Display.none false true 11) ∧
        hasTaskbarItem "about" staleLabel = true) ∧
      ((∃ w', (openWindow "about" staleLabel).windows[0]? = some w' ∧
        w'.display = Display.block ∧ w'.active = true) ∧
      (openWindow "about" staleLabel).activeWindow = some 0 ∧
      (taskbarIds (openWindow "about" staleLabel)).count "about" = 1 ∧
      (hasTaskbarItem "about" staleLabel = false →
        taskbarLabels (openWindow "about" staleLabel) =
          taskbarLabels staleLabel ++
            [("about", (mkWindow "about" "About Me" Display.none false true 11).title)]) ∧
      (hasTaskbarItem "about" staleLabel = true →
        taskbarLabels (openWindow "about" staleLabel) = taskbarLabels staleLabel))) ∧
    (((taskbarIds page0).Nodup ∧ plainId "about" = true ∧
        getElementById "about" page0 = some 0 ∧
        page0.windows[0]? = some (mkWindow "about" "About Me" Display.unset false false 0) ∧
        hasTaskbarItem "about" page0 = false) ∧
      ((∃ w', (openWindow "about" page0).windows[0]? = some w' ∧
        w'.display = Display.block ∧ w'.active = true) ∧
      (openWindow "about" page0).activeWindow = some 0 ∧
      (taskbarIds (openWindow "about" page0)).count "about" = 1 ∧
      (hasTaskbarItem "about" page0 = false →
        taskbarLabels (openWindow "about" page0) =
          taskbarLabels page0 ++
            [("about", (mkWindow "about" "About Me" Display.unset false false 0).title)]) ∧
      (hasTaskbarItem "about" page0 = true →
        taskbarLabels (openWindow "about" page0) = taskbarLabels page0))) :=
  ⟨⟨⟨by decide, by decide, by decide, by decide, by decide⟩,
      open_shows_activates_registers staleLabel "about" 0
        (mkWindow "about" "About Me" Display.none false true 11)
        (by decide) (by decide) (by decide) (by decide)⟩,
    ⟨⟨by decide, by decide, by decide, by decide, by decide⟩,
      open_shows_activates_registers page0 "about" 0
        (mkWindow "about" "About Me" Display.unset false false 0)
        (by decide) (by decide) (by decide) (by decide)⟩⟩

/-- C7, as stated, fails. On a freshly loaded page a call of `restoreWindow` displays a
window that has no taskbar item, with no timer pending. And on a page whose window has
the id `escapedId`, which the selector of line 265 does not read as itself, the window is
opened and closed, no timer is pending, and its taskbar item is still there. -/
theorem taskbar_iff_counterexample :
    (∀ w ∈ page0.windows, w.display ≠ Display.block) ∧ page0.taskbar = [] ∧
    (run [Event.restoreWindow "about"] page0).timers = [] ∧
    (run [Event.restoreWindow "about"] page0).windows.map (fun w => (w.id, w.display)) =
      [("about", Display.block), ("projects", Display.unset), ("contact", Display.unset)] ∧
    taskbarIds (run [Event.restoreWindow "about"] page0) = [] ∧
    (∀ w ∈ escapedPage.windows, w.display ≠ Display.block) ∧ escapedPage.taskbar = [] ∧
    (run [Event.openWindow escapedId, Event.timeout 0, Event.click (closeButtonOf 0),
      Event.timeout 0] escapedPage).timers = [] ∧
    (run [Event.openWindow escapedId, Event.timeout 0, Event.click (closeButtonOf 0),
      Event.timeout 0] escapedPage).windows.map (fun w => w.display) = [Display.none] ∧
    taskbarIds (run [Event.openWindow escapedId, Event.timeout 0,
      Event.click (closeButtonOf 0), Event.timeout 0] escapedPage) = [escapedId] := by
  decide

/-- C7, amended: starting from a state in which window ids are unique and plain, no
window is displayed and the taskbar is empty, after any sequence of life cycle events
(`openWindow`, `closeWindow`, `minimizeWindow`, clicks on taskbar items and elsewhere,
double clicks on icons, timers firing in any order; no direct call of `restoreWindow`),
pending timers or not:
* every displayed window has a taskbar item, and every window with a taskbar item is
  displayed, or hidden by `display: none` and of class `inactive`;
* the callback of `closeWindow` leaves its window hidden and without taskbar item, and
  touches no other item;
* the callback of `minimizeWindow` leaves its window hidden and every taskbar item in
  place, so a window minimized while displayed keeps its item;
* whatever happens next, an item disappears only in the callback of `closeWindow` for its
  window, and an item appears only for a window that is then displayed. -/
theorem taskbar_mirrors_windows (s0 : Desktop) (es : List Event)
    (hids : (s0.windows.map (fun w => w.id)).Nodup)
    (hplain : ∀ w ∈ s0.windows, plainId w.id = true)
    (hclosed : ∀ w ∈ s0.windows, w.display ≠ Display.block) (hempty : s0.taskbar = [])
    (hes : ∀ e ∈ es, e.lifecycle = true) :
    (∀ (i : Nat) (x : Window), (run es s0).windows[i]? = some x →
      (x.display = Display.block → x.id ∈ taskbarIds (run es s0)) ∧
      (x.id ∈ taskbarIds (run es s0) →
        x.display = Display.block ∨ (x.display = Display.none ∧ x.inactive = true))) ∧
    (∀ (window : Nat) (w : Window), (run es s0).windows[window]? = some w →
      ClosedLosesEntry (run es s0) window w ∧ MinimizedKeepsEntry (run es s0) window w) ∧
    (∀ e : Event, EntriesPersist (run es s0) e ∧ EntriesFromOpen (run es s0) e) := by
  obtain ⟨_, hn, hm, hp⟩ :=
    taskbarInv_run es s0 hes (taskbarInv_initial s0 hids hplain hclosed hempty)
  refine ⟨hm, ?_, fun e => applyEvent_entries e (run es s0)⟩
  intro window w hw
  have hpw := hp window w hw
  have hc := taskbarIds_closeWindowTimeout window (run es s0) w hw hpw
  refine ⟨⟨closeWindowTimeout_display window _ w hw, ?_, ?_⟩,
    ⟨minimizeWindowTimeout_display window _ w hw, taskbarIds_minimizeWindowTimeout _ _, ?_⟩⟩
  · rw [hc]
    exact hn.not_mem_erase
  · intro a ha
    rw [hc, hn.mem_erase_iff]
    exact ⟨fun h => h.2, fun h => ⟨ha, h⟩⟩
  · intro hd
    rw [taskbarIds_minimizeWindowTimeout]
    exact (hm window w hw).1 hd

/-- Witness of the amended C7: the session `openMinimizeClose` on a freshly loaded page. -/
theorem taskbar_mirrors_windows_witness :
    ((page0.windows.map (fun w => w.id)).Nodup ∧
      (∀ w ∈ page0.windows, plainId w.id = true) ∧
      (∀ w ∈ page0.windows, w.display ≠ Display.block) ∧ page0.taskbar = [] ∧
      (∀ e ∈ openMinimizeClose, e.lifecycle = true)) ∧
    ((∀ (i : Nat) (x : Window), (run openMinimizeClose page0).windows[i]? = some x →
      (x.display = Display.block → x.id ∈ taskbarIds (run openMinimizeClose page0)) ∧
      (x.id ∈ taskbarIds (run openMinimizeClose page0) →
        x.display = Display.block ∨ (x.display = Display.none ∧ x.inactive = true))) ∧
    (∀ (window : Nat) (w : Window), (run openMinimizeClose page0).windows[window]? = some w →
      ClosedLosesEntry (run openMinimizeClose page0) window w ∧
      MinimizedKeepsEntry (run openMinimizeClose page0) window w) ∧
    (∀ e : Event, EntriesPersist (run openMinimizeClose page0) e ∧
      EntriesFromOpen (run openMinimizeClose page0) e)) :=
  ⟨⟨by decide, by decide, by decide, rfl, by decide⟩,
    taskbar_mirrors_windows page0 openMinimizeClose (by decide) (by decide) (by decide) rfl
      (by decide)⟩

end Shell
